import Mathlib

/-!
Verification of the jbcrs class-file library (constant pool, byte codec,
attribute/instruction parser, writer, descriptor grammar).

The definitions below are shallow embeddings of the Rust sources:
  * `src/src/basic/parser/decode.rs`   (struct `Decoder`, here `Dec`)
  * `src/basic/src/writer/encode.rs`   (struct `Encoder`, here byte-list output)
  * `src/basic/src/constpool.rs`       (struct `Pool`)
  * `src/src/basic/tree.rs`            (the tree model)
  * `src/src/basic/parser/{mod,method,code}.rs` and
    `src/basic/src/parser/{class,annotation}.rs` (the parser)
  * `src/src/basic/writer/mod.rs`      (the writer)
  * `src/src/types.rs`                 (descriptors)

Modelling conventions:
  * Rust byte slices become `List Nat` (each entry a byte value).
  * `usize`/`u16`/`u32` become `Nat`; where the source performs wrapping
    machine arithmetic the wrap is written explicitly with `% 2^w`.
  * `i8`/`i16`/`i32`/`i64` become `Int`, produced by explicit two's
    complement conversions `toI8`/`toI16`/`toI32`.
  * `f32`/`f64` items are represented by their IEEE-754 bit patterns
    (the library itself hashes and compares floats bitwise).
  * Fallible Rust code (`Result`) becomes `RRes`; a Rust panic (vector
    index out of bounds, arithmetic overflow caught by the debug
    overflow checks, capacity overflow) is the `RRes.panicked` outcome.
  * Rust strings become `List Char` (a Lean `Char` is exactly a Unicode
    scalar value, as is a Rust `char`).
-/

/-- The error enum of `src/basic/src/result.rs`, together with the
`InvalidDescriptor` variant of `src/src/result.rs` (the descriptor parser
lives in the outer crate).  The `IO` variant is omitted: no file based
wrapper is modelled. -/
inductive Error where
  | InvalidUTF8 : Error
  | LimitExceeded : Error
  | NotAClass : Error
  | InvalidCPItem : Nat → Error
  | CPTooLarge : Error
  | InvalidInstruction : Nat → Nat → Error
  | ReservedStackMapFrame : Nat → Error
  | InvalidVerificationType : Nat → Error
  | InvalidElementValue : Nat → Error
  | InvalidTargetType : Error
  | InvalidTypePath : Error
  | InvalidDescriptor : List Char → Nat → Error
deriving DecidableEq, Repr

/-- Outcome of running a piece of Rust code: `Ok`, `Err`, or a panic
(out-of-bounds indexing, checked-arithmetic overflow, capacity overflow). -/
inductive RRes (α : Type) where
  | ok : α → RRes α
  | err : Error → RRes α
  | panicked : RRes α
deriving DecidableEq, Repr

instance : Monad RRes where
  pure := RRes.ok
  bind := fun x f =>
    match x with
    | .ok a => f a
    | .err e => .err e
    | .panicked => .panicked

/-- Two's complement reading of a `u8` value as `i8` (`as i8` in Rust). -/
def toI8 (n : Nat) : Int :=
  let m := n % 256
  if m < 128 then (m : Int) else (m : Int) - 256

/-- Two's complement reading of a `u16` value as `i16` (`as i16` in Rust). -/
def toI16 (n : Nat) : Int :=
  let m := n % 65536
  if m < 32768 then (m : Int) else (m : Int) - 65536

/-- Two's complement reading of a `u32` value as `i32` (`as i32` in Rust). -/
def toI32 (n : Nat) : Int :=
  let m := n % 4294967296
  if m < 2147483648 then (m : Int) else (m : Int) - 4294967296

/-- Two's complement reading of a `u64` value as `i64` (`as i64` in Rust). -/
def toI64 (n : Nat) : Int :=
  let m := n % 18446744073709551616
  if m < 9223372036854775808 then (m : Int) else (m : Int) - 18446744073709551616

/-- Wrapping `i32` arithmetic (release-mode overflow behaviour): reduce an
integer into the interval `[-2^31, 2^31)`. -/
def wrap32 (z : Int) : Int :=
  (z + 2147483648) % 4294967296 - 2147483648

/-- The positional reader of `src/src/basic/parser/decode.rs`.
`bytes` is the borrowed input slice, `cursor` the shared cursor and
`limit` the active length bound (`Decoder::new` sets it to the slice
length; `Decoder::limit` derives a handle with a smaller bound). -/
structure Dec where
  bytes : List Nat
  cursor : Nat
  limit : Nat
deriving DecidableEq, Repr

/-- `Decoder::new(bytes, cursor)` with cursor 0. -/
def Dec.new (bytes : List Nat) : Dec :=
  { bytes := bytes, cursor := 0, limit := bytes.length }

/-- `Decoder::check`: fails with `LimitExceeded` when `location` passes the
active limit. -/
def Dec.check (d : Dec) (location : Nat) : RRes Unit :=
  if location ≤ d.limit then .ok () else .err .LimitExceeded

/-- `Decoder::read_bytes(count)`.  The slice expression
`&self.bytes[cursor..end]` panics when `end` exceeds the slice length;
for decoders whose limit is bounded by the slice length (all decoders the
library builds) that cannot happen after `check`. -/
def Dec.read_bytes (d : Dec) (count : Nat) : RRes (List Nat × Dec) := do
  let en := d.cursor + count
  let _ ← d.check en
  if en ≤ d.bytes.length then
    .ok ((d.bytes.drop d.cursor).take count, { d with cursor := en })
  else
    .panicked

/-- `Decoder::read_u8`. -/
def Dec.read_u8 (d : Dec) : RRes (Nat × Dec) := do
  let (bs, d') ← d.read_bytes 1
  match bs with
  | [b] => .ok (b, d')
  | _ => .panicked

/-- `Decoder::read_u16` (big endian). -/
def Dec.read_u16 (d : Dec) : RRes (Nat × Dec) := do
  let (bs, d') ← d.read_bytes 2
  match bs with
  | [b0, b1] => .ok (b0 * 256 + b1, d')
  | _ => .panicked

/-- `Decoder::read_u32` (big endian). -/
def Dec.read_u32 (d : Dec) : RRes (Nat × Dec) := do
  let (bs, d') ← d.read_bytes 4
  match bs with
  | [b0, b1, b2, b3] => .ok (((b0 * 256 + b1) * 256 + b2) * 256 + b3, d')
  | _ => .panicked

/-- `Decoder::read_u64` (big endian). -/
def Dec.read_u64 (d : Dec) : RRes (Nat × Dec) := do
  let (bs, d') ← d.read_bytes 8
  match bs with
  | [b0, b1, b2, b3, b4, b5, b6, b7] =>
    .ok (((((((b0 * 256 + b1) * 256 + b2) * 256 + b3) * 256 + b4) * 256 + b5)
      * 256 + b6) * 256 + b7, d')
  | _ => .panicked

/-- `Decoder::read_i8`. -/
def Dec.read_i8 (d : Dec) : RRes (Int × Dec) := do
  let (v, d') ← d.read_u8
  .ok (toI8 v, d')

/-- `Decoder::read_i16`. -/
def Dec.read_i16 (d : Dec) : RRes (Int × Dec) := do
  let (v, d') ← d.read_u16
  .ok (toI16 v, d')

/-- `Decoder::read_i32`. -/
def Dec.read_i32 (d : Dec) : RRes (Int × Dec) := do
  let (v, d') ← d.read_u32
  .ok (toI32 v, d')

/-- `Decoder::read_i64`. -/
def Dec.read_i64 (d : Dec) : RRes (Int × Dec) := do
  let (v, d') ← d.read_u64
  .ok (toI64 v, d')

/-- `Decoder::read_f32`: the value is kept as its raw bit pattern. -/
def Dec.read_f32 (d : Dec) : RRes (Nat × Dec) :=
  d.read_u32

/-- `Decoder::read_f64`: the value is kept as its raw bit pattern. -/
def Dec.read_f64 (d : Dec) : RRes (Nat × Dec) :=
  d.read_u64

/-- `Decoder::skip(to)`: advance the cursor by `n` bytes. -/
def Dec.skip (d : Dec) (n : Nat) : RRes Dec := do
  let en := d.cursor + n
  let _ ← d.check en
  .ok { d with cursor := en }

/-- `Decoder::limit(to)`: derive a sub-reader sharing the cursor whose
limit is `cursor + n`. -/
def Dec.lim (d : Dec) (n : Nat) : RRes Dec := do
  let en := d.cursor + n
  let _ ← d.check en
  .ok { d with limit := en }

/-- `Decoder::remove_limit`: succeeds only when the cursor sits exactly on
the limit. -/
def Dec.remove_limit (d : Dec) : RRes Unit :=
  if d.limit = d.cursor then .ok () else .err .LimitExceeded

/-- `char::from_u32(ch).ok_or(Error::InvalidUTF8)`: only Unicode scalar
values become characters. -/
def mk_char (ch : Nat) : RRes Char :=
  if h : ch.isValidChar then .ok (Char.ofNatAux ch h) else .err .InvalidUTF8

/-- Loop body of `Decoder::read_str` (`while i > 0`).  `i` is the
remaining declared byte budget, a `usize` in the source: the statement
`i -= 2` in the two-byte branch is guarded only by `i >= 1`, so for
`i = 1` it underflows, which is `RRes.panicked` here (the debug overflow
check; a release build wraps and keeps consuming input).  The `fuel`
argument only drives the structural recursion; the wrapper passes
`len + 1`, which the loop (consuming at least one unit of `i` per
iteration) can never exhaust, so the `fuel = 0` branch is unreachable. -/
def read_str_go (fuel : Nat) (d : Dec) (i : Nat) (out : List Char) :
    RRes (List Char × Dec) :=
  match fuel with
  | 0 => .panicked
  | fuel + 1 =>
    if i = 0 then .ok (out, d) else do
      let (r1, d) ← d.read_u8
      if r1 ≠ 0 ∧ r1 < 0x80 then do
        -- single byte: i -= 1
        let c ← mk_char r1
        read_str_go fuel d (i - 1) (out ++ [c])
      else if 0xC0 ≤ r1 ∧ r1 < 0xE0 ∧ 1 ≤ i then
        -- two bytes: `i -= 2` underflows when i = 1 (the guard is i >= 1)
        if i < 2 then .panicked else do
          let (r2, d) ← d.read_u8
          let c ← mk_char (((r1 &&& 0x1F) <<< 6) ||| (r2 &&& 0x3F))
          read_str_go fuel d (i - 2) (out ++ [c])
      else if 0xE0 ≤ r1 ∧ r1 < 0xF0 ∧ 3 ≤ i then do
        let (r2, d) ← d.read_u8
        let (r3, d) ← d.read_u8
        if r1 = 0xED ∧ 0xA0 ≤ r2 ∧ r2 ≤ 0xAF then
          -- surrogate pair: the source demands SIX more budget units
          -- (`i >= 6` after already subtracting 3) although only three
          -- more bytes are read
          if 6 ≤ i - 3 then do
            let (_r4, d) ← d.read_u8
            let (r5, d) ← d.read_u8
            let (r6, d) ← d.read_u8
            let c ← mk_char (0x10000 + ((r2 &&& 0x0F) <<< 16) +
              ((r3 &&& 0x3F) <<< 10) + ((r5 &&& 0x0F) <<< 6) + (r6 &&& 0x3F))
            read_str_go fuel d (i - 3 - 6) (out ++ [c])
          else
            .err .InvalidUTF8
        else do
          let c ← mk_char
            (((r1 &&& 0x0F) <<< 12) + ((r2 &&& 0x3F) <<< 6) + (r3 &&& 0x3F))
          read_str_go fuel d (i - 3) (out ++ [c])
      else
        .err .InvalidUTF8

/-- `Decoder::read_str(length)`: decode `length` bytes of modified UTF-8. -/
def Dec.read_str (d : Dec) (length : Nat) : RRes (List Char × Dec) :=
  read_str_go (length + 1) d length []

/-- Byte sequence `Encoder::write_str` emits for one `char` with code
point `u` (`src/basic/src/writer/encode.rs`, lines 100-123). -/
def mod_utf8_char (u : Nat) : List Nat :=
  if u ≠ 0x00 ∧ u < 0x80 then
    [u]
  else if u < 0x0800 then
    [0xC0 ||| ((u >>> 6) &&& 0x1F), 0x80 ||| (u &&& 0x3F)]
  else if u < 0x10000 then
    [0xE0 ||| ((u >>> 12) &&& 0x0F), 0x80 ||| ((u >>> 6) &&& 0x3F),
     0x80 ||| (u &&& 0x3F)]
  else
    [0xED, 0xA0 ||| ((u >>> 16) &&& 0x0F), 0x80 ||| ((u >>> 12) &&& 0x3F),
     0xED, 0xB0 ||| ((u >>> 6) &&& 0x0F), 0x80 ||| (u &&& 0x3F)]

/-- `Encoder::write_str`: emit every character of the string. -/
def write_str (s : List Char) : List Nat :=
  (s.map fun c => mod_utf8_char c.toNat).flatten

/-- `ReferenceKind` of `src/basic/src/constpool.rs`. -/
inductive ReferenceKind where
  | GetField | GetStatic | PutField | PutStatic
  | InvokeVirtual | InvokeStatic | InvokeSpecial | NewInvokeSpecial
  | InvokeInterface
deriving DecidableEq, Repr

/-- Constant pool items (`enum Item` of `src/basic/src/constpool.rs`).
`Float` and `Double` carry their IEEE-754 bit patterns, matching the
library's bitwise `Hash`/`Eq` implementations; the Rust field `class` is
rendered `cls` (`class` is a Lean keyword). -/
inductive Item where
  | UTF8 : List Char → Item
  | Integer : Int → Item
  | Float : Nat → Item
  | Long : Int → Item
  | Double : Nat → Item
  | Class : Nat → Item
  | String : Nat → Item
  | FieldRef : (cls : Nat) → (name_and_type : Nat) → Item
  | MethodRef : (cls : Nat) → (name_and_type : Nat) → Item
  | InterfaceMethodRef : (cls : Nat) → (name_and_type : Nat) → Item
  | NameAndType : (name : Nat) → (desc : Nat) → Item
  | MethodHandle : (kind : ReferenceKind) → (index : Nat) → Item
  | MethodType : Nat → Item
  | InvokeDynamic : (bootstrap_method : Nat) → (name_and_type : Nat) → Item
  | Module : Nat → Item
  | Package : Nat → Item
deriving DecidableEq, Repr

/-- `Item::is_double`: true for the wide items `Long` and `Double`. -/
def Item.is_double : Item → Bool
  | .Long _ => true
  | .Double _ => true
  | _ => false

/-- The constant pool of `src/basic/src/constpool.rs`.  `by_index` models
the `Vec<Option<Rc<Item>>>` (a `None` is the reserved placeholder slot
after a wide item) and `by_entry` models the `HashMap<Rc<Item>, u16>` as
an association list whose most recent binding shadows older ones. -/
structure Pool where
  length : Nat
  by_index : List (Option Item)
  by_entry : List (Item × Nat)
deriving DecidableEq, Repr

/-- `HashMap::get` on the association-list model of `by_entry`. -/
def lookup_entry (m : List (Item × Nat)) (it : Item) : Option Nat :=
  match m with
  | [] => none
  | (k, v) :: rest => if k = it then some v else lookup_entry rest it

/-- `Pool::new()`: the encoded length starts at 1. -/
def Pool.new : Pool :=
  { length := 1, by_index := [], by_entry := [] }

/-- `Pool::len()`: the encoded length (the next free index). -/
def Pool.len (p : Pool) : Nat :=
  p.length

/-- `Pool::is_empty()`. -/
def Pool.is_empty (p : Pool) : Bool :=
  p.len = 1

/-- `Pool::get(index)` (`src/basic/src/constpool.rs` lines 350-359).
After the bounds check `index != 0 && index <= self.len()` the source
indexes `self.by_index[index - 1]`; a `Vec` index out of bounds is a Rust
panic, hence `RRes.panicked`.  A `None` placeholder slot falls through to
`Err(InvalidCPItem(index))`. -/
def Pool.get (p : Pool) (index : Nat) : RRes Item :=
  if index ≠ 0 ∧ index ≤ p.len then
    match p.by_index.get? (index - 1) with
    | some (some item) => .ok item
    | some none => .err (.InvalidCPItem index)
    | none => .panicked
  else
    .err (.InvalidCPItem index)

/-- `Pool::get_utf8(index)`. -/
def Pool.get_utf8 (p : Pool) (index : Nat) : RRes (List Char) := do
  let it ← p.get index
  match it with
  | .UTF8 s => .ok s
  | _ => .err (.InvalidCPItem index)

/-- `Pool::get_class_name_opt(index)`. -/
def Pool.get_class_name_opt (p : Pool) (index : Nat) : RRes (Option (List Char)) := do
  let it ← p.get index
  match it with
  | .Class utf_index =>
    if utf_index = 0 then .ok none
    else do
      let s ← p.get_utf8 utf_index
      .ok (some s)
  | _ => .err (.InvalidCPItem index)

/-- `Pool::get_class_name(index)`. -/
def Pool.get_class_name (p : Pool) (index : Nat) : RRes (List Char) := do
  let it ← p.get index
  match it with
  | .Class utf_index => p.get_utf8 utf_index
  | _ => .err (.InvalidCPItem index)

/-- `Pool::push(item)` (`src/basic/src/constpool.rs` lines 394-421):
deduplicating insert.  The only capacity check is
`self.len() == u16::max_value()`; the increments `*length += 1` and
`*length += 2` act on a `u16`, written here with an explicit
`% 65536` (the release-mode wrap; a debug build would panic on the
overflow, and either behaviour differs from returning `CPTooLarge`). -/
def Pool.push (p : Pool) (item : Item) : RRes (Nat × Pool) :=
  if p.len = 65535 then .err .CPTooLarge
  else
    match lookup_entry p.by_entry item with
    | some index => .ok (index, p)
    | none =>
      let double := item.is_double
      let prev_length := p.length
      if double then
        .ok (prev_length,
          { length := (p.length + 2) % 65536,
            by_index := p.by_index ++ [some item, none],
            by_entry := (item, prev_length) :: p.by_entry })
      else
        .ok (prev_length,
          { length := (p.length + 1) % 65536,
            by_index := p.by_index ++ [some item],
            by_entry := (item, prev_length) :: p.by_entry })

/-- `Pool::push_duplicate(item)` (`src/basic/src/constpool.rs` lines
427-446): unconditional append; same capacity check and same wrapping
`u16` length arithmetic as `push`. -/
def Pool.push_duplicate (p : Pool) (item : Item) : RRes (Nat × Pool) :=
  if p.len = 65535 then .err .CPTooLarge
  else
    let double := item.is_double
    let prev_length := p.length
    if double then
      .ok (prev_length,
        { length := (p.length + 2) % 65536,
          by_index := p.by_index ++ [some item, none],
          by_entry := (item, prev_length) :: p.by_entry })
    else
      .ok (prev_length,
        { length := (p.length + 1) % 65536,
          by_index := p.by_index ++ [some item],
          by_entry := (item, prev_length) :: p.by_entry })

/-- `Pool::push_utf8(content)`. -/
def Pool.push_utf8 (p : Pool) (content : List Char) : RRes (Nat × Pool) :=
  p.push (.UTF8 content)

/-- `Pool::push_class(name)`. -/
def Pool.push_class (p : Pool) (name : List Char) : RRes (Nat × Pool) := do
  let (name_index, p) ← p.push_utf8 name
  p.push (.Class name_index)

/-- `Pool::get_items` (`src/src/basic/constpool.rs` lines 348-360): the
occupied slots in index order, placeholders filtered out. -/
def Pool.get_items (p : Pool) : List Item :=
  p.by_index.filterMap id

/-- The pools reachable by any sequence of `push` / `push_duplicate`
calls starting from `Pool::new()`. -/
inductive Pool.Reachable : Pool → Prop where
  | new : Pool.Reachable Pool.new
  | push : ∀ {p it i p'}, Pool.Reachable p →
      p.push it = .ok (i, p') → Pool.Reachable p'
  | push_duplicate : ∀ {p it i p'}, Pool.Reachable p →
      p.push_duplicate it = .ok (i, p') → Pool.Reachable p'

/-- `enum ArrayType` of `src/src/basic/tree.rs`. -/
inductive ArrayType where
  | Boolean | Char | Float | Double | Byte | Short | Int | Long
deriving DecidableEq, Repr

/-- `enum Instruction` of `src/src/basic/tree.rs`.  `u8`/`u16` operands
are `Nat`; `i8`/`i16`/`i32` operands are `Int`; the `BTreeMap<i32, i32>`
of `LookupSwitch` is a key-sorted association list. -/
inductive Instruction where
  | NOP | AConstNull | IConstM1
  | IConst0 | IConst1 | IConst2 | IConst3 | IConst4 | IConst5
  | LConst0 | LConst1
  | FConst0 | FConst1 | FConst2
  | DConst0 | DConst1
  | BIPush : Int → Instruction
  | SIPush : Int → Instruction
  | LDC : Nat → Instruction
  | ILoad : Nat → Instruction
  | LLoad : Nat → Instruction
  | FLoad : Nat → Instruction
  | DLoad : Nat → Instruction
  | ALoad : Nat → Instruction
  | ILoad0 | ILoad1 | ILoad2 | ILoad3
  | LLoad0 | LLoad1 | LLoad2 | LLoad3
  | FLoad0 | FLoad1 | FLoad2 | FLoad3
  | DLoad0 | DLoad1 | DLoad2 | DLoad3
  | ALoad0 | ALoad1 | ALoad2 | ALoad3
  | IALoad | LALoad | FALoad | DALoad | AALoad | BALoad | CALoad | SALoad
  | IStore : Nat → Instruction
  | LStore : Nat → Instruction
  | FStore : Nat → Instruction
  | DStore : Nat → Instruction
  | AStore : Nat → Instruction
  | IStore0 | IStore1 | IStore2 | IStore3
  | LStore0 | LStore1 | LStore2 | LStore3
  | FStore0 | FStore1 | FStore2 | FStore3
  | DStore0 | DStore1 | DStore2 | DStore3
  | AStore0 | AStore1 | AStore2 | AStore3
  | IAStore | LAStore | FAStore | DAStore | AAStore | BAStore | CAStore | SAStore
  | Pop | Pop2
  | Dup | DupX1 | DupX2 | Dup2 | Dup2X1 | Dup2X2
  | Swap
  | IAdd | LAdd | FAdd | DAdd
  | ISub | LSub | FSub | DSub
  | IMul | LMul | FMul | DMul
  | IDiv | LDiv | FDiv | DDiv
  | IRem | LRem | FRem | DRem
  | INeg | LNeg | FNeg | DNeg
  | IShL | LShL | IShR | LShR | IUShR | LUShR
  | IAnd | LAnd | IOr | LOr | IXOr | LXOr
  | IInc : Nat → Int → Instruction
  | I2L | I2F | I2D | L2I | L2F | L2D
  | F2I | F2L | F2D | D2I | D2L | D2F
  | I2B | I2C | I2S
  | LCmp | FCmpL | FCmpG | DCmpL | DCmpG
  | IfEq : Int → Instruction
  | IfNE : Int → Instruction
  | IfLT : Int → Instruction
  | IfGE : Int → Instruction
  | IfGT : Int → Instruction
  | IfLE : Int → Instruction
  | IfICmpEq : Int → Instruction
  | IfICmpNE : Int → Instruction
  | IfICmpLT : Int → Instruction
  | IfICmpGE : Int → Instruction
  | IfICmpGT : Int → Instruction
  | IfICmpLE : Int → Instruction
  | IfACmpEq : Int → Instruction
  | IfACmpNE : Int → Instruction
  | GoTo : Int → Instruction
  | JSR : Int → Instruction
  | Ret : Nat → Instruction
  | TableSwitch : (default : Int) → (low : Int) → (high : Int) →
      (offsets : List Int) → Instruction
  | LookupSwitch : (default : Int) → (offsets : List (Int × Int)) → Instruction
  | IReturn | LReturn | FReturn | DReturn | AReturn | Return
  | GetStatic : Nat → Instruction
  | PutStatic : Nat → Instruction
  | GetField : Nat → Instruction
  | PutField : Nat → Instruction
  | InvokeVirtual : Nat → Instruction
  | InvokeSpecial : Nat → Instruction
  | InvokeStatic : Nat → Instruction
  | InvokeInterface : Nat → Nat → Instruction
  | InvokeDynamic : Nat → Instruction
  | New : Nat → Instruction
  | NewArray : ArrayType → Instruction
  | ANewArray : Nat → Instruction
  | ArrayLength
  | AThrow
  | CheckCast : Nat → Instruction
  | InstanceOf : Nat → Instruction
  | MonitorEnter | MonitorExit
  | MultiANewArray : Nat → Nat → Instruction
  | IfNull : Int → Instruction
  | IfNonNull : Int → Instruction
  | BreakPoint | ImpDep1 | ImpDep2

/-- Read `n` consecutive `i32` values (`for _ in low..(high + 1)` of the
tableswitch branch, with the iteration count precomputed). -/
def read_i32_list : Nat → Dec → List Int → RRes (List Int × Dec)
  | 0, d, acc => .ok (acc.reverse, d)
  | n + 1, d, acc => do
    let (v, d) ← d.read_i32
    read_i32_list n d (v :: acc)

/-- `BTreeMap::insert` on the key-sorted association-list model. -/
def btree_insert (m : List (Int × Int)) (k v : Int) : List (Int × Int) :=
  match m with
  | [] => [(k, v)]
  | (k', v') :: rest =>
    if k < k' then (k, v) :: (k', v') :: rest
    else if k = k' then (k, v) :: rest
    else (k', v') :: btree_insert rest k v

/-- The lookupswitch pair loop: read `n` `(match, offset)` pairs into the
ordered map. -/
def read_lookup_pairs : Nat → Dec → List (Int × Int) → RRes (List (Int × Int) × Dec)
  | 0, d, m => .ok (m, d)
  | n + 1, d, m => do
    let (key, d) ← d.read_i32
    let (off, d) ← d.read_i32
    read_lookup_pairs n d (btree_insert m key off)

/-- The `0xAA` (tableswitch) arm of `parse_instruction`
(`src/src/basic/parser/code.rs` lines 244-262), factored out of the match
so that theorems can reason about it in isolation.

The arm evaluates `Vec::with_capacity((high - low + 1) as usize)`: the
`i32` arithmetic wraps (release mode; a debug build panics on overflow),
and casting a negative `i32` to `usize` produces an enormous capacity on
which `Vec::with_capacity` panics, hence `RRes.panicked` whenever
`wrap32 (high - low + 1) < 0`.  The loop `for _ in low..(high+1)`
likewise computes `high + 1` in wrapping `i32` arithmetic. -/
def ts_arm (d : Dec) (a : Nat) : RRes (Instruction × Dec) := do
  let d ← d.skip (3 - (a &&& 3))
  let (dflt, d) ← d.read_i32
  let (low, d) ← d.read_i32
  let (high, d) ← d.read_i32
  if wrap32 (high - low + 1) < 0 then .panicked
  else do
    let (offsets, d) ← read_i32_list (wrap32 (high + 1) - low).toNat d []
    pure (Instruction.TableSwitch dflt low high offsets, d)

/-- The `0xAB` (lookupswitch) arm of `parse_instruction`
(`src/src/basic/parser/code.rs` lines 263-277), factored out of the
match. -/
def ls_arm (d : Dec) (a : Nat) : RRes (Instruction × Dec) := do
  let d ← d.skip (3 - (a &&& 3))
  let (dflt, d) ← d.read_i32
  let (count, d) ← d.read_u32
  let (offsets, d) ← read_lookup_pairs count d []
  pure (Instruction.LookupSwitch dflt offsets, d)

/-- `parse_instruction` (`src/src/basic/parser/code.rs` lines 64-359).
`a` is the byte offset `at` of the instruction relative to the start of
the code stream; the result pairs the end offset
`at + (cursor - prev_cursor)` with the decoded instruction.

The two switch arms are the factored-out `ts_arm` / `ls_arm` above. -/
def parse_instruction (d0 : Dec) (a : Nat) : RRes (Nat × Instruction) := do
  let prev_cursor := d0.cursor
  let (op_code, d) ← d0.read_u8
  let (insn, d) ←
    (match op_code with
    | 0x00 => pure (Instruction.NOP, d)
    | 0x01 => pure (Instruction.AConstNull, d)
    | 0x02 => pure (Instruction.IConstM1, d)
    | 0x03 => pure (Instruction.IConst0, d)
    | 0x04 => pure (Instruction.IConst1, d)
    | 0x05 => pure (Instruction.IConst2, d)
    | 0x06 => pure (Instruction.IConst3, d)
    | 0x07 => pure (Instruction.IConst4, d)
    | 0x08 => pure (Instruction.IConst5, d)
    | 0x09 => pure (Instruction.LConst0, d)
    | 0x0A => pure (Instruction.LConst1, d)
    | 0x0B => pure (Instruction.FConst0, d)
    | 0x0C => pure (Instruction.FConst1, d)
    | 0x0D => pure (Instruction.FConst2, d)
    | 0x0E => pure (Instruction.DConst0, d)
    | 0x0F => pure (Instruction.DConst1, d)
    | 0x10 => do
      let (v, d) ← d.read_i8
      pure (Instruction.BIPush v, d)
    | 0x11 => do
      let (v, d) ← d.read_i16
      pure (Instruction.SIPush v, d)
    | 0x12 => do
      let (v, d) ← d.read_u8
      pure (Instruction.LDC v, d)
    | 0x13 | 0x14 => do
      let (v, d) ← d.read_u16
      pure (Instruction.LDC v, d)
    | 0x15 => do
      let (v, d) ← d.read_u8
      pure (Instruction.ILoad v, d)
    | 0x16 => do
      let (v, d) ← d.read_u8
      pure (Instruction.LLoad v, d)
    | 0x17 => do
      let (v, d) ← d.read_u8
      pure (Instruction.FLoad v, d)
    | 0x18 => do
      let (v, d) ← d.read_u8
      pure (Instruction.DLoad v, d)
    | 0x19 => do
      let (v, d) ← d.read_u8
      pure (Instruction.ALoad v, d)
    | 0x1A => pure (Instruction.ILoad0, d)
    | 0x1B => pure (Instruction.ILoad1, d)
    | 0x1C => pure (Instruction.ILoad2, d)
    | 0x1D => pure (Instruction.ILoad3, d)
    | 0x1E => pure (Instruction.LLoad0, d)
    | 0x1F => pure (Instruction.LLoad1, d)
    | 0x20 => pure (Instruction.LLoad2, d)
    | 0x21 => pure (Instruction.LLoad3, d)
    | 0x22 => pure (Instruction.FLoad0, d)
    | 0x23 => pure (Instruction.FLoad1, d)
    | 0x24 => pure (Instruction.FLoad2, d)
    | 0x25 => pure (Instruction.FLoad3, d)
    | 0x26 => pure (Instruction.DLoad0, d)
    | 0x27 => pure (Instruction.DLoad1, d)
    | 0x28 => pure (Instruction.DLoad2, d)
    | 0x29 => pure (Instruction.DLoad3, d)
    | 0x2A => pure (Instruction.ALoad0, d)
    | 0x2B => pure (Instruction.ALoad1, d)
    | 0x2C => pure (Instruction.ALoad2, d)
    | 0x2D => pure (Instruction.ALoad3, d)
    | 0x2E => pure (Instruction.IALoad, d)
    | 0x2F => pure (Instruction.LALoad, d)
    | 0x30 => pure (Instruction.FALoad, d)
    | 0x31 => pure (Instruction.DALoad, d)
    | 0x32 => pure (Instruction.AALoad, d)
    | 0x33 => pure (Instruction.BALoad, d)
    | 0x34 => pure (Instruction.CALoad, d)
    | 0x35 => pure (Instruction.SALoad, d)
    | 0x36 => do
      let (v, d) ← d.read_u8
      pure (Instruction.IStore v, d)
    | 0x37 => do
      let (v, d) ← d.read_u8
      pure (Instruction.LStore v, d)
    | 0x38 => do
      let (v, d) ← d.read_u8
      pure (Instruction.FStore v, d)
    | 0x39 => do
      let (v, d) ← d.read_u8
      pure (Instruction.DStore v, d)
    | 0x3A => do
      let (v, d) ← d.read_u8
      pure (Instruction.AStore v, d)
    | 0x3B => pure (Instruction.IStore0, d)
    | 0x3C => pure (Instruction.IStore1, d)
    | 0x3D => pure (Instruction.IStore2, d)
    | 0x3E => pure (Instruction.IStore3, d)
    | 0x3F => pure (Instruction.LStore0, d)
    | 0x40 => pure (Instruction.LStore1, d)
    | 0x41 => pure (Instruction.LStore2, d)
    | 0x42 => pure (Instruction.LStore3, d)
    | 0x43 => pure (Instruction.FStore0, d)
    | 0x44 => pure (Instruction.FStore1, d)
    | 0x45 => pure (Instruction.FStore2, d)
    | 0x46 => pure (Instruction.FStore3, d)
    | 0x47 => pure (Instruction.DStore0, d)
    | 0x48 => pure (Instruction.DStore1, d)
    | 0x49 => pure (Instruction.DStore2, d)
    | 0x4A => pure (Instruction.DStore3, d)
    | 0x4B => pure (Instruction.AStore0, d)
    | 0x4C => pure (Instruction.AStore1, d)
    | 0x4D => pure (Instruction.AStore2, d)
    | 0x4E => pure (Instruction.AStore3, d)
    | 0x4F => pure (Instruction.IAStore, d)
    | 0x50 => pure (Instruction.LAStore, d)
    | 0x51 => pure (Instruction.FAStore, d)
    | 0x52 => pure (Instruction.DAStore, d)
    | 0x53 => pure (Instruction.AAStore, d)
    | 0x54 => pure (Instruction.BAStore, d)
    | 0x55 => pure (Instruction.CAStore, d)
    | 0x56 => pure (Instruction.SAStore, d)
    | 0x57 => pure (Instruction.Pop, d)
    | 0x58 => pure (Instruction.Pop2, d)
    | 0x59 => pure (Instruction.Dup, d)
    | 0x5A => pure (Instruction.DupX1, d)
    | 0x5B => pure (Instruction.DupX2, d)
    | 0x5C => pure (Instruction.Dup2, d)
    | 0x5D => pure (Instruction.Dup2X1, d)
    | 0x5E => pure (Instruction.Dup2X2, d)
    | 0x5F => pure (Instruction.Swap, d)
    | 0x60 => pure (Instruction.IAdd, d)
    | 0x61 => pure (Instruction.LAdd, d)
    | 0x62 => pure (Instruction.FAdd, d)
    | 0x63 => pure (Instruction.DAdd, d)
    | 0x64 => pure (Instruction.ISub, d)
    | 0x65 => pure (Instruction.LSub, d)
    | 0x66 => pure (Instruction.FSub, d)
    | 0x67 => pure (Instruction.DSub, d)
    | 0x68 => pure (Instruction.IMul, d)
    | 0x69 => pure (Instruction.LMul, d)
    | 0x6A => pure (Instruction.FMul, d)
    | 0x6B => pure (Instruction.DMul, d)
    | 0x6C => pure (Instruction.IDiv, d)
    | 0x6D => pure (Instruction.LDiv, d)
    | 0x6E => pure (Instruction.FDiv, d)
    | 0x6F => pure (Instruction.DDiv, d)
    | 0x70 => pure (Instruction.IRem, d)
    | 0x71 => pure (Instruction.LRem, d)
    | 0x72 => pure (Instruction.FRem, d)
    | 0x73 => pure (Instruction.DRem, d)
    | 0x74 => pure (Instruction.INeg, d)
    | 0x75 => pure (Instruction.LNeg, d)
    | 0x76 => pure (Instruction.FNeg, d)
    | 0x77 => pure (Instruction.DNeg, d)
    | 0x78 => pure (Instruction.IShL, d)
    | 0x79 => pure (Instruction.LShL, d)
    | 0x7A => pure (Instruction.IShR, d)
    | 0x7B => pure (Instruction.LShR, d)
    | 0x7C => pure (Instruction.IUShR, d)
    | 0x7D => pure (Instruction.LUShR, d)
    | 0x7E => pure (Instruction.IAnd, d)
    | 0x7F => pure (Instruction.LAnd, d)
    | 0x80 => pure (Instruction.IOr, d)
    | 0x81 => pure (Instruction.LOr, d)
    | 0x82 => pure (Instruction.IXOr, d)
    | 0x83 => pure (Instruction.LXOr, d)
    | 0x84 => do
      let (index, d) ← d.read_u8
      let (value, d) ← d.read_i8
      pure (Instruction.IInc index value, d)
    | 0x85 => pure (Instruction.I2L, d)
    | 0x86 => pure (Instruction.I2F, d)
    | 0x87 => pure (Instruction.I2D, d)
    | 0x88 => pure (Instruction.L2I, d)
    | 0x89 => pure (Instruction.L2F, d)
    | 0x8A => pure (Instruction.L2D, d)
    | 0x8B => pure (Instruction.F2I, d)
    | 0x8C => pure (Instruction.F2L, d)
    | 0x8D => pure (Instruction.F2D, d)
    | 0x8E => pure (Instruction.D2I, d)
    | 0x8F => pure (Instruction.D2L, d)
    | 0x90 => pure (Instruction.D2F, d)
    | 0x91 => pure (Instruction.I2B, d)
    | 0x92 => pure (Instruction.I2C, d)
    | 0x93 => pure (Instruction.I2S, d)
    | 0x94 => pure (Instruction.LCmp, d)
    | 0x95 => pure (Instruction.FCmpL, d)
    | 0x96 => pure (Instruction.FCmpG, d)
    | 0x97 => pure (Instruction.DCmpL, d)
    | 0x98 => pure (Instruction.DCmpG, d)
    | 0x99 => do
      let (v, d) ← d.read_i16
      pure (Instruction.IfEq v, d)
    | 0x9A => do
      let (v, d) ← d.read_i16
      pure (Instruction.IfNE v, d)
    | 0x9B => do
      let (v, d) ← d.read_i16
      pure (Instruction.IfLT v, d)
    | 0x9C => do
      let (v, d) ← d.read_i16
      pure (Instruction.IfGE v, d)
    | 0x9D => do
      let (v, d) ← d.read_i16
      pure (Instruction.IfGT v, d)
    | 0x9E => do
      let (v, d) ← d.read_i16
      pure (Instruction.IfLE v, d)
    | 0x9F => do
      let (v, d) ← d.read_i16
      pure (Instruction.IfICmpEq v, d)
    | 0xA0 => do
      let (v, d) ← d.read_i16
      pure (Instruction.IfICmpNE v, d)
    | 0xA1 => do
      let (v, d) ← d.read_i16
      pure (Instruction.IfICmpLT v, d)
    | 0xA2 => do
      let (v, d) ← d.read_i16
      pure (Instruction.IfICmpGE v, d)
    | 0xA3 => do
      let (v, d) ← d.read_i16
      pure (Instruction.IfICmpGT v, d)
    | 0xA4 => do
      let (v, d) ← d.read_i16
      pure (Instruction.IfICmpLE v, d)
    | 0xA5 => do
      let (v, d) ← d.read_i16
      pure (Instruction.IfACmpEq v, d)
    | 0xA6 => do
      let (v, d) ← d.read_i16
      pure (Instruction.IfACmpNE v, d)
    | 0xA7 => do
      let (v, d) ← d.read_i16
      pure (Instruction.GoTo v, d)
    | 0xA8 => do
      let (v, d) ← d.read_i16
      pure (Instruction.JSR v, d)
    | 0xA9 => do
      let (v, d) ← d.read_u8
      pure (Instruction.Ret v, d)
    | 0xAA => ts_arm d a
    | 0xAB => ls_arm d a
    | 0xAC => pure (Instruction.IReturn, d)
    | 0xAD => pure (Instruction.LReturn, d)
    | 0xAE => pure (Instruction.FReturn, d)
    | 0xAF => pure (Instruction.DReturn, d)
    | 0xB0 => pure (Instruction.AReturn, d)
    | 0xB1 => pure (Instruction.Return, d)
    | 0xB2 => do
      let (v, d) ← d.read_u16
      pure (Instruction.GetStatic v, d)
    | 0xB3 => do
      let (v, d) ← d.read_u16
      pure (Instruction.PutStatic v, d)
    | 0xB4 => do
      let (v, d) ← d.read_u16
      pure (Instruction.GetField v, d)
    | 0xB5 => do
      let (v, d) ← d.read_u16
      pure (Instruction.PutField v, d)
    | 0xB6 => do
      let (v, d) ← d.read_u16
      pure (Instruction.InvokeVirtual v, d)
    | 0xB7 => do
      let (v, d) ← d.read_u16
      pure (Instruction.InvokeSpecial v, d)
    | 0xB8 => do
      let (v, d) ← d.read_u16
      pure (Instruction.InvokeStatic v, d)
    | 0xB9 => do
      let (index, d) ← d.read_u16
      let (count, d) ← d.read_u8
      let d ← d.skip 1
      pure (Instruction.InvokeInterface index count, d)
    | 0xBA => do
      let (index, d) ← d.read_u16
      let d ← d.skip 2
      pure (Instruction.InvokeDynamic index, d)
    | 0xBB => do
      let (v, d) ← d.read_u16
      pure (Instruction.New v, d)
    | 0xBC => do
      let (atype, d) ← d.read_u8
      match atype with
      | 0x04 => pure (Instruction.NewArray ArrayType.Boolean, d)
      | 0x05 => pure (Instruction.NewArray ArrayType.Char, d)
      | 0x06 => pure (Instruction.NewArray ArrayType.Float, d)
      | 0x07 => pure (Instruction.NewArray ArrayType.Double, d)
      | 0x08 => pure (Instruction.NewArray ArrayType.Byte, d)
      | 0x09 => pure (Instruction.NewArray ArrayType.Short, d)
      | 0x0A => pure (Instruction.NewArray ArrayType.Int, d)
      | 0x0B => pure (Instruction.NewArray ArrayType.Long, d)
      | _ => .err (.InvalidInstruction 0xBC a)
    | 0xBD => do
      let (v, d) ← d.read_u16
      pure (Instruction.ANewArray v, d)
    | 0xBE => pure (Instruction.ArrayLength, d)
    | 0xBF => pure (Instruction.AThrow, d)
    | 0xC0 => do
      let (v, d) ← d.read_u16
      pure (Instruction.CheckCast v, d)
    | 0xC1 => do
      let (v, d) ← d.read_u16
      pure (Instruction.InstanceOf v, d)
    | 0xC2 => pure (Instruction.MonitorEnter, d)
    | 0xC3 => pure (Instruction.MonitorExit, d)
    | 0xC4 => do
      let (wide_op, d) ← d.read_u8
      match wide_op with
      | 0x15 => do
        let (v, d) ← d.read_u16
        pure (Instruction.ILoad v, d)
      | 0x16 => do
        let (v, d) ← d.read_u16
        pure (Instruction.LLoad v, d)
      | 0x17 => do
        let (v, d) ← d.read_u16
        pure (Instruction.FLoad v, d)
      | 0x18 => do
        let (v, d) ← d.read_u16
        pure (Instruction.DLoad v, d)
      | 0x19 => do
        let (v, d) ← d.read_u16
        pure (Instruction.ALoad v, d)
      | 0x36 => do
        let (v, d) ← d.read_u16
        pure (Instruction.IStore v, d)
      | 0x37 => do
        let (v, d) ← d.read_u16
        pure (Instruction.LStore v, d)
      | 0x38 => do
        let (v, d) ← d.read_u16
        pure (Instruction.FStore v, d)
      | 0x39 => do
        let (v, d) ← d.read_u16
        pure (Instruction.DStore v, d)
      | 0x40 => do
        -- sic: the source lists 0x40 (the lstore_1 opcode) here, not the
        -- astore opcode 0x3A
        let (v, d) ← d.read_u16
        pure (Instruction.AStore v, d)
      | 0x84 => do
        let (index, d) ← d.read_u16
        let (value, d) ← d.read_i16
        pure (Instruction.IInc index value, d)
      | 0xA9 => do
        let (v, d) ← d.read_u16
        pure (Instruction.Ret v, d)
      | _ => .err (.InvalidInstruction 0xC4 a)
    | 0xC5 => do
      let (array_type, d) ← d.read_u16
      let (dimensions, d) ← d.read_u8
      pure (Instruction.MultiANewArray array_type dimensions, d)
    | 0xC6 => do
      let (v, d) ← d.read_i16
      pure (Instruction.IfNull v, d)
    | 0xC7 => do
      let (v, d) ← d.read_i16
      pure (Instruction.IfNonNull v, d)
    | 0xC8 => do
      let (v, d) ← d.read_i32
      pure (Instruction.GoTo v, d)
    | 0xC9 => do
      let (v, d) ← d.read_i32
      pure (Instruction.JSR v, d)
    | 0xCA => pure (Instruction.BreakPoint, d)
    | 0xFE => pure (Instruction.ImpDep1, d)
    | 0xFF => pure (Instruction.ImpDep2, d)
    | _ => .err (.InvalidInstruction op_code a))
  .ok (a + (d.cursor - prev_cursor), insn)

/-- `AccessFlags` (a `bitflags` u16 bitfield): the representation stores
the raw bits; `from_bits_truncate` masks to the defined bits, which for
this flag set cover every u16 value, so the raw value is kept. -/
abbrev AccessFlags := Nat

/-- `struct Exception` of `src/src/basic/tree.rs` (an exception table
entry of a Code attribute). -/
structure ExcEntry where
  start : Nat
  en : Nat
  handler : Nat
  catch_type : Nat
deriving DecidableEq, Repr

/-- `struct BootstrapMethod` of `src/src/basic/tree.rs`. -/
structure BootstrapMethod where
  method_ref : Nat
  arguments : List Nat
deriving DecidableEq, Repr

/-- `struct LineNumber` of `src/src/basic/tree.rs`. -/
structure LineNumber where
  start : Nat
  line_number : Nat
deriving DecidableEq, Repr

/-- `struct InnerClass` of `src/src/basic/tree.rs`. -/
structure InnerClass where
  inner_class_info : Nat
  outer_class_info : Nat
  inner_name : Nat
  inner_class_access_flags : AccessFlags
deriving DecidableEq, Repr

/-- `enum VerificationType` of `src/src/basic/tree.rs`. -/
inductive VerificationType where
  | Top | Integer | Float | Double | Long | Null | UninitializedThis
  | Object : Nat → VerificationType
  | Uninitialized : Nat → VerificationType
deriving DecidableEq, Repr

/-- `enum StackMapFrame` of `src/src/basic/tree.rs`. -/
inductive StackMapFrame where
  | Same : (offset_delta : Nat) → StackMapFrame
  | Same1 : (offset_delta : Nat) → (stack : VerificationType) → StackMapFrame
  | Chop : (offset_delta : Nat) → (count : Nat) → StackMapFrame
  | Append : (offset_delta : Nat) → (locals : List VerificationType) → StackMapFrame
  | Full : (offset_delta : Nat) → (locals : List VerificationType) →
      (stack : List VerificationType) → StackMapFrame
deriving DecidableEq, Repr

/-- `struct LocalVariableTarget` of `src/src/basic/tree.rs`. -/
structure LocalVariableTarget where
  start : Nat
  length : Nat
  index : Nat
deriving DecidableEq, Repr

/-- `struct LocalVariable` of `src/src/basic/tree.rs`. -/
structure LocalVariable where
  start : Nat
  length : Nat
  name : Nat
  descriptor : Nat
  index : Nat
deriving DecidableEq, Repr

/-- `struct LocalVariableType` of `src/src/basic/tree.rs`. -/
structure LocalVariableType where
  start : Nat
  length : Nat
  name : Nat
  signature : Nat
  index : Nat
deriving DecidableEq, Repr

/-- `struct MethodParameter` of `src/src/basic/tree.rs`. -/
structure MethodParameter where
  name : Nat
  access_flags : AccessFlags
deriving DecidableEq, Repr

/-- `struct Requirement` of `src/src/basic/tree.rs`. -/
structure Requirement where
  index : Nat
  flags : AccessFlags
  version : Nat
deriving DecidableEq, Repr

/-- `struct Export` of `src/src/basic/tree.rs`. -/
structure Export where
  index : Nat
  flags : AccessFlags
  to_ : List Nat
deriving DecidableEq, Repr

/-- `struct Opening` of `src/src/basic/tree.rs`. -/
structure Opening where
  index : Nat
  flags : AccessFlags
  to_ : List Nat
deriving DecidableEq, Repr

/-- `struct Provider` of `src/src/basic/tree.rs`. -/
structure Provider where
  index : Nat
  w : List Nat
deriving DecidableEq, Repr

/-- `enum TargetType` of `src/src/basic/tree.rs`. -/
inductive TargetType where
  | TypeParameterClass : Nat → TargetType
  | TypeParameterMethod : Nat → TargetType
  | SuperType : Nat → TargetType
  | TypeParameterBoundClass : (type_parameter : Nat) → (bound_index : Nat) → TargetType
  | TypeParameterBoundMethod : (type_parameter : Nat) → (bound_index : Nat) → TargetType
  | EmptyField | EmptyReturn | EmptyReceiver
  | FormalParameter : Nat → TargetType
  | Throws : Nat → TargetType
  | LocalVariable : List LocalVariableTarget → TargetType
  | ResourceVariable : List LocalVariableTarget → TargetType
  | Catch : Nat → TargetType
  | OffsetInstanceOf : Nat → TargetType
  | OffsetNew : Nat → TargetType
  | OffsetNewRef : Nat → TargetType
  | OffsetRef : Nat → TargetType
  | TypeArgumentCast : (offset : Nat) → (type_argument : Nat) → TargetType
  | TypeArgumentMethod : (offset : Nat) → (type_argument : Nat) → TargetType
  | TypeArgumentConstructor : (offset : Nat) → (type_argument : Nat) → TargetType
  | TypeArgumentNewRef : (offset : Nat) → (type_argument : Nat) → TargetType
  | TypeArgumentRef : (offset : Nat) → (type_argument : Nat) → TargetType
deriving DecidableEq, Repr

/-- `enum TypePathKind` of `src/src/basic/tree.rs`. -/
inductive TypePathKind where
  | ArrayType | NestedType | WildcardType | Type
deriving DecidableEq, Repr

/-- `struct TypePathElement` of `src/src/basic/tree.rs`. -/
structure TypePathElement where
  path_kind : TypePathKind
  argument_index : Nat
deriving DecidableEq, Repr

mutual

/-- `enum ElementValue` of `src/src/basic/tree.rs`.  The Rust variant
`Annotation(Box<Annotation>)` is rendered `annot` (the Rust name collides
with a reserved suffix here). -/
inductive ElementValue where
  | Byte : Nat → ElementValue
  | Short : Nat → ElementValue
  | Char : Nat → ElementValue
  | Int : Nat → ElementValue
  | Long : Nat → ElementValue
  | Float : Nat → ElementValue
  | Double : Nat → ElementValue
  | Boolean : Nat → ElementValue
  | String : Nat → ElementValue
  | Enum : (type_name : Nat) → (const_name : Nat) → ElementValue
  | Class : Nat → ElementValue
  | annot : Annot → ElementValue
  | Array : List ElementValue → ElementValue

/-- `struct Annotation` of `src/src/basic/tree.rs` (rendered `Annot`). -/
inductive Annot where
  | mk : (type_index : Nat) → (element_value_pairs : List (Nat × ElementValue)) → Annot

end

/-- `struct TypeAnnotation` of `src/src/basic/tree.rs` (rendered
`TypeAnnot`). -/
structure TypeAnnot where
  target_type : TargetType
  target_path : List TypePathElement
  a : Annot

/-- `enum Attribute` of `src/src/basic/tree.rs`.  The
`HashMap<u32, Instruction>` of `Code` is modelled as the list of inserted
`(offset, instruction)` pairs in insertion order (the parser inserts each
offset exactly once, in increasing order). -/
inductive Attribute where
  | AnnotationDefault : ElementValue → Attribute
  | BootstrapMethods : List BootstrapMethod → Attribute
  | Code : (max_stack : Nat) → (max_locals : Nat) →
      (instructions : List (Nat × Instruction)) →
      (exceptions : List ExcEntry) →
      (attributes : List Attribute) → Attribute
  | ConstantValue : Nat → Attribute
  | Deprecated : Attribute
  | EnclosingMethod : (class_index : Nat) → (method_index : Nat) → Attribute
  | Exceptions : List Nat → Attribute
  | InnerClasses : List InnerClass → Attribute
  | LineNumberTable : List LineNumber → Attribute
  | LocalVariableTable : List LocalVariable → Attribute
  | LocalVariableTypeTable : List LocalVariableType → Attribute
  | MethodParameters : List MethodParameter → Attribute
  | Module : (name : Nat) → (flags : AccessFlags) → (version : Nat) →
      (requires_ : List Requirement) → (exports : List Export) →
      (opens : List Opening) → (uses : List Nat) →
      (provides : List Provider) → Attribute
  | ModuleMainClass : Nat → Attribute
  | ModulePackages : List Nat → Attribute
  | RuntimeVisibleAnnotations : List Annot → Attribute
  | RuntimeInvisibleAnnotations : List Annot → Attribute
  | RuntimeVisibleParameterAnnotations : List (List Annot) → Attribute
  | RuntimeInvisibleParameterAnnotations : List (List Annot) → Attribute
  | RuntimeVisibleTypeAnnotations : List TypeAnnot → Attribute
  | RuntimeInvisibleTypeAnnotations : List TypeAnnot → Attribute
  | Signature : Nat → Attribute
  | Synthetic : Attribute
  | SourceFile : Nat → Attribute
  | SourceDebugExtension : List Char → Attribute
  | StackMapTable : List StackMapFrame → Attribute
  | Unknown : Nat → List Nat → Attribute

/-- `struct Field` of `src/src/basic/tree.rs` (rendered `JvmField`: the
name `Field` is taken by Mathlib). -/
structure JvmField where
  access_flags : AccessFlags
  name : Nat
  desc : Nat
  attributes : List Attribute

/-- `struct Method` of `src/src/basic/tree.rs` (rendered `JvmMethod`). -/
structure JvmMethod where
  access_flags : AccessFlags
  name : Nat
  desc : Nat
  attributes : List Attribute

/-- `struct Class` of `src/src/basic/tree.rs` (rendered `JvmClass`: the
name `Class` is taken by Mathlib). -/
structure JvmClass where
  minor_version : Nat
  major_version : Nat
  access_flags : AccessFlags
  name : Nat
  super_name : Nat
  interfaces : List Nat
  fields : List JvmField
  methods : List JvmMethod
  attributes : List Attribute

/-- The byte size of one `char` in Rust's standard (not modified) UTF-8
string representation. -/
def rust_char_len (c : Char) : Nat :=
  if c.toNat < 0x80 then 1
  else if c.toNat < 0x800 then 2
  else if c.toNat < 0x10000 then 3
  else 4

/-- `str::len()`: the byte length of a Rust string, i.e. the sum of the
standard UTF-8 sizes of its characters. -/
def rust_str_len (s : List Char) : Nat :=
  (s.map rust_char_len).sum

/-- `Encoder::write_u16` (big endian); the argument is a `u16`. -/
def u16be (v : Nat) : List Nat :=
  [v / 256 % 256, v % 256]

/-- `Encoder::write_u32` (big endian); the argument is a `u32`. -/
def u32be (v : Nat) : List Nat :=
  [v / 16777216 % 256, v / 65536 % 256, v / 256 % 256, v % 256]

/-- `Encoder::write_u64` (big endian); the argument is a `u64`. -/
def u64be (v : Nat) : List Nat :=
  [v / 72057594037927936 % 256, v / 281474976710656 % 256,
   v / 1099511627776 % 256, v / 4294967296 % 256,
   v / 16777216 % 256, v / 65536 % 256, v / 256 % 256, v % 256]

/-- `Encoder::write_i32`: the two's complement big-endian bytes. -/
def i32be (z : Int) : List Nat :=
  u32be (z % 4294967296).toNat

/-- `Encoder::write_i64`: the two's complement big-endian bytes. -/
def i64be (z : Int) : List Nat :=
  u64be (z % 18446744073709551616).toNat

/-- The `ReferenceKind` byte constants written for `MethodHandle` items
(`src/src/basic/writer/mod.rs` lines 104-114). -/
def reference_kind_byte : ReferenceKind → Nat
  | .GetField => 1
  | .GetStatic => 2
  | .PutField => 3
  | .PutStatic => 4
  | .InvokeVirtual => 5
  | .InvokeStatic => 6
  | .InvokeSpecial => 7
  | .NewInvokeSpecial => 8
  | .InvokeInterface => 9

/-- The bytes emitted for one constant pool item: the loop body of
`write_constant_pool` (`src/src/basic/writer/mod.rs` lines 40-137).  The
UTF8 arm writes `s.len() as u16` — the byte length of the string in
Rust's standard UTF-8 representation (`rust_str_len`), truncated to
`u16` — followed by `write_str`, the modified UTF-8 bytes. -/
def write_item (item : Item) : List Nat :=
  match item with
  | .UTF8 s => 1 :: u16be (rust_str_len s % 65536) ++ write_str s
  | .Integer value => 3 :: i32be value
  | .Float bits => 4 :: u32be bits
  | .Long value => 5 :: i64be value
  | .Double bits => 6 :: u64be bits
  | .Class cls => 7 :: u16be cls
  | .String cls => 8 :: u16be cls
  | .FieldRef cls name_and_type => 9 :: u16be cls ++ u16be name_and_type
  | .MethodRef cls name_and_type => 10 :: u16be cls ++ u16be name_and_type
  | .InterfaceMethodRef cls name_and_type =>
      11 :: u16be cls ++ u16be name_and_type
  | .NameAndType name desc => 12 :: u16be name ++ u16be desc
  | .MethodHandle kind index => 15 :: reference_kind_byte kind :: u16be index
  | .MethodType index => 16 :: u16be index
  | .InvokeDynamic bootstrap_method name_and_type =>
      18 :: u16be bootstrap_method ++ u16be name_and_type
  | .Module index => 19 :: u16be index
  | .Package index => 20 :: u16be index

/-- `Pool::encoded_length`.  Modelled from the spec: the method called by
`write_constant_pool` is absent from the sources under `src/`; the spec
says the encoded length field written to disk equals the next free index,
i.e. `len()`. -/
def Pool.encoded_length (p : Pool) : Nat :=
  p.len

/-- `write_constant_pool` (`src/src/basic/writer/mod.rs` lines 37-139). -/
def write_constant_pool (pool : Pool) : List Nat :=
  u16be pool.encoded_length ++ (pool.get_items.map write_item).flatten

/-- `write_attributes` (`src/src/basic/writer/mod.rs` lines 164-167).
The source body is the stub `// implement later` followed by
`encoder.write_u16(0)`: it writes an attribute count of zero and drops
every attribute. -/
def write_attributes (_attributes : List Attribute) : List Nat :=
  u16be 0

/-- `write_fields` (`src/src/basic/writer/mod.rs` lines 142-150);
`fields.len() as u16` truncates. -/
def write_fields (fields : List JvmField) : List Nat :=
  u16be (fields.length % 65536) ++
    (fields.map fun f =>
      u16be f.access_flags ++ u16be f.name ++ u16be f.desc ++
        write_attributes f.attributes).flatten

/-- `write_methods` (`src/src/basic/writer/mod.rs` lines 153-161). -/
def write_methods (methods : List JvmMethod) : List Nat :=
  u16be (methods.length % 65536) ++
    (methods.map fun m =>
      u16be m.access_flags ++ u16be m.name ++ u16be m.desc ++
        write_attributes m.attributes).flatten

/-- `write(constant_pool, class)` (`src/src/basic/writer/mod.rs` lines
9-34). -/
def write (constant_pool : Pool) (c : JvmClass) : RRes (List Nat) :=
  .ok ([0xCA, 0xFE, 0xBA, 0xBE] ++
    u16be c.minor_version ++ u16be c.major_version ++
    write_constant_pool constant_pool ++
    u16be c.access_flags ++ u16be c.name ++ u16be c.super_name ++
    u16be (c.interfaces.length % 65536) ++
    (c.interfaces.map u16be).flatten ++
    write_fields c.fields ++
    write_methods c.methods ++
    write_attributes c.attributes)

/-- Embedding of a count-driven `for` loop that runs `step` `n` times and
collects the results in order. -/
def loopN {α : Type} (step : Dec → RRes (α × Dec)) : Nat → Dec → List α → RRes (List α × Dec)
  | 0, d, acc => .ok (acc.reverse, d)
  | n + 1, d, acc => do
    let (x, d) ← step d
    loopN step n d (x :: acc)

/-- `parse_exceptions` (`src/src/basic/parser/method.rs` lines 5-12). -/
def parse_exceptions (d : Dec) : RRes (Attribute × Dec) := do
  let (count, d) ← d.read_u16
  let (exceptions, d) ← loopN (fun d => d.read_u16) count d []
  .ok (.Exceptions exceptions, d)

/-- `parse_line_number_table` (`src/src/basic/parser/method.rs` lines
15-24). -/
def parse_line_number_table (d : Dec) : RRes (Attribute × Dec) := do
  let (count, d) ← d.read_u16
  let (table, d) ← loopN (fun d => do
    let (start, d) ← d.read_u16
    let (line_number, d) ← d.read_u16
    pure (LineNumber.mk start line_number, d)) count d []
  .ok (.LineNumberTable table, d)

/-- `parse_local_variable_table` (`src/src/basic/parser/method.rs` lines
27-45). -/
def parse_local_variable_table (d : Dec) : RRes (Attribute × Dec) := do
  let (count, d) ← d.read_u16
  let (table, d) ← loopN (fun d => do
    let (start, d) ← d.read_u16
    let (length, d) ← d.read_u16
    let (name, d) ← d.read_u16
    let (descriptor, d) ← d.read_u16
    let (index, d) ← d.read_u16
    pure (LocalVariable.mk start length name descriptor index, d)) count d []
  .ok (.LocalVariableTable table, d)

/-- `parse_local_variable_type_table` (`src/src/basic/parser/method.rs`
lines 48-66). -/
def parse_local_variable_type_table (d : Dec) : RRes (Attribute × Dec) := do
  let (count, d) ← d.read_u16
  let (table, d) ← loopN (fun d => do
    let (start, d) ← d.read_u16
    let (length, d) ← d.read_u16
    let (name, d) ← d.read_u16
    let (signature, d) ← d.read_u16
    let (index, d) ← d.read_u16
    pure (LocalVariableType.mk start length name signature index, d)) count d []
  .ok (.LocalVariableTypeTable table, d)

/-- `parse_verification_type` (`src/src/basic/parser/method.rs` lines
137-154). -/
def parse_verification_type (d : Dec) : RRes (VerificationType × Dec) := do
  let (tag, d) ← d.read_u8
  match tag with
  | 0 => .ok (.Top, d)
  | 1 => .ok (.Integer, d)
  | 2 => .ok (.Float, d)
  | 3 => .ok (.Double, d)
  | 4 => .ok (.Long, d)
  | 5 => .ok (.Null, d)
  | 6 => .ok (.UninitializedThis, d)
  | 7 => do
    let (v, d) ← d.read_u16
    .ok (.Object v, d)
  | 8 => do
    let (v, d) ← d.read_u16
    .ok (.Uninitialized v, d)
  | _ => .err (.InvalidVerificationType tag)

/-- `parse_stack_map_table` (`src/src/basic/parser/method.rs` lines
69-134). -/
def parse_stack_map_table (d : Dec) : RRes (Attribute × Dec) := do
  let (count, d) ← d.read_u16
  let (table, d) ← loopN (fun d => do
    let (frame_type, d) ← d.read_u8
    if frame_type ≤ 63 then
      pure (StackMapFrame.Same frame_type, d)
    else if 64 ≤ frame_type ∧ frame_type ≤ 127 then do
      let (stack, d) ← parse_verification_type d
      pure (StackMapFrame.Same1 (frame_type - 64) stack, d)
    else if frame_type = 247 then do
      let (offset_delta, d) ← d.read_u16
      let (stack, d) ← parse_verification_type d
      pure (StackMapFrame.Same1 offset_delta stack, d)
    else if 248 ≤ frame_type ∧ frame_type ≤ 250 then do
      let (offset_delta, d) ← d.read_u16
      pure (StackMapFrame.Chop offset_delta (251 - frame_type), d)
    else if frame_type = 251 then do
      let (offset_delta, d) ← d.read_u16
      pure (StackMapFrame.Same offset_delta, d)
    else if 252 ≤ frame_type ∧ frame_type ≤ 254 then do
      let (offset_delta, d) ← d.read_u16
      let (locals, d) ← loopN parse_verification_type (frame_type - 251) d []
      pure (StackMapFrame.Append offset_delta locals, d)
    else if frame_type = 255 then do
      let (offset_delta, d) ← d.read_u16
      let (local_count, d) ← d.read_u16
      let (locals, d) ← loopN parse_verification_type local_count d []
      let (stack_size, d) ← d.read_u16
      let (stack, d) ← loopN parse_verification_type stack_size d []
      pure (StackMapFrame.Full offset_delta locals stack, d)
    else
      .err (.ReservedStackMapFrame frame_type)) count d []
  .ok (.StackMapTable table, d)

/-- `parse_method_parameters` (`src/src/basic/parser/method.rs` lines
157-166). -/
def parse_method_parameters (d : Dec) : RRes (Attribute × Dec) := do
  let (count, d) ← d.read_u16
  let (params, d) ← loopN (fun d => do
    let (name, d) ← d.read_u16
    let (access_flags, d) ← d.read_u16
    pure (MethodParameter.mk name access_flags, d)) count d []
  .ok (.MethodParameters params, d)

/-- `parse_bootstrap_methods` (`src/basic/src/parser/class.rs` lines
5-21). -/
def parse_bootstrap_methods (d : Dec) : RRes (Attribute × Dec) := do
  let (count, d) ← d.read_u16
  let (bootstrap_methods, d) ← loopN (fun d => do
    let (method_ref, d) ← d.read_u16
    let (count, d) ← d.read_u16
    let (arguments, d) ← loopN (fun d => d.read_u16) count d []
    pure (BootstrapMethod.mk method_ref arguments, d)) count d []
  .ok (.BootstrapMethods bootstrap_methods, d)

/-- `parse_enclosing_method` (`src/basic/src/parser/class.rs` lines
24-29). -/
def parse_enclosing_method (d : Dec) : RRes (Attribute × Dec) := do
  let (class_index, d) ← d.read_u16
  let (method_index, d) ← d.read_u16
  .ok (.EnclosingMethod class_index method_index, d)

/-- `parse_inner_classes` (`src/basic/src/parser/class.rs` lines 32-48). -/
def parse_inner_classes (d : Dec) : RRes (Attribute × Dec) := do
  let (count, d) ← d.read_u16
  let (inner_classes, d) ← loopN (fun d => do
    let (inner_class_info, d) ← d.read_u16
    let (outer_class_info, d) ← d.read_u16
    let (inner_name, d) ← d.read_u16
    let (inner_class_access_flags, d) ← d.read_u16
    pure (InnerClass.mk inner_class_info outer_class_info inner_name
      inner_class_access_flags, d)) count d []
  .ok (.InnerClasses inner_classes, d)

/-- `parse_module_packages` (`src/basic/src/parser/class.rs` lines
51-58). -/
def parse_module_packages (d : Dec) : RRes (Attribute × Dec) := do
  let (count, d) ← d.read_u16
  let (packages, d) ← loopN (fun d => d.read_u16) count d []
  .ok (.ModulePackages packages, d)

/-- `parse_module` (`src/basic/src/parser/class.rs` lines 61-144). -/
def parse_module (d : Dec) : RRes (Attribute × Dec) := do
  let (name, d) ← d.read_u16
  let (flags, d) ← d.read_u16
  let (version, d) ← d.read_u16
  let (requires_count, d) ← d.read_u16
  let (requires_, d) ← loopN (fun d => do
    let (index, d) ← d.read_u16
    let (flags, d) ← d.read_u16
    let (version, d) ← d.read_u16
    pure (Requirement.mk index flags version, d)) requires_count d []
  let (exports_count, d) ← d.read_u16
  let (exports, d) ← loopN (fun d => do
    let (index, d) ← d.read_u16
    let (flags, d) ← d.read_u16
    let (to_count, d) ← d.read_u16
    let (t, d) ← loopN (fun d => d.read_u16) to_count d []
    pure (Export.mk index flags t, d)) exports_count d []
  let (opens_count, d) ← d.read_u16
  let (opens, d) ← loopN (fun d => do
    let (index, d) ← d.read_u16
    let (flags, d) ← d.read_u16
    let (to_count, d) ← d.read_u16
    let (t, d) ← loopN (fun d => d.read_u16) to_count d []
    pure (Opening.mk index flags t, d)) opens_count d []
  let (uses_count, d) ← d.read_u16
  let (uses, d) ← loopN (fun d => d.read_u16) uses_count d []
  let (provides_count, d) ← d.read_u16
  let (provides, d) ← loopN (fun d => do
    let (index, d) ← d.read_u16
    let (with_count, d) ← d.read_u16
    let (w, d) ← loopN (fun d => d.read_u16) with_count d []
    pure (Provider.mk index w, d)) provides_count d []
  .ok (.Module name flags version requires_ exports opens uses provides, d)

/-- `parse_local_variable` (`src/basic/src/parser/annotation.rs` lines
157-173): the table of a local-variable target type. -/
def parse_local_variable_target (d : Dec) : RRes (List LocalVariableTarget × Dec) := do
  let (length, d) ← d.read_u8
  loopN (fun d => do
    let (start, d) ← d.read_u16
    let (length, d) ← d.read_u16
    let (index, d) ← d.read_u16
    pure (LocalVariableTarget.mk start length index, d)) length d []

/-- `parse_target_type` (`src/basic/src/parser/annotation.rs` lines
104-154). -/
def parse_target_type (d : Dec) : RRes (TargetType × Dec) := do
  let (b, d) ← d.read_u8
  match b with
  | 0x00 => do
    let (v, d) ← d.read_u8
    .ok (.TypeParameterClass v, d)
  | 0x01 => do
    let (v, d) ← d.read_u8
    .ok (.TypeParameterMethod v, d)
  | 0x10 => do
    let (v, d) ← d.read_u16
    .ok (.SuperType v, d)
  | 0x11 => do
    let (type_parameter, d) ← d.read_u8
    let (bound_index, d) ← d.read_u8
    .ok (.TypeParameterBoundClass type_parameter bound_index, d)
  | 0x12 => do
    let (type_parameter, d) ← d.read_u8
    let (bound_index, d) ← d.read_u8
    .ok (.TypeParameterBoundMethod type_parameter bound_index, d)
  | 0x13 => .ok (.EmptyField, d)
  | 0x14 => .ok (.EmptyReturn, d)
  | 0x15 => .ok (.EmptyReceiver, d)
  | 0x16 => do
    let (v, d) ← d.read_u8
    .ok (.FormalParameter v, d)
  | 0x17 => do
    let (v, d) ← d.read_u16
    .ok (.Throws v, d)
  | 0x40 => do
    let (t, d) ← parse_local_variable_target d
    .ok (.LocalVariable t, d)
  | 0x41 => do
    let (t, d) ← parse_local_variable_target d
    .ok (.ResourceVariable t, d)
  | 0x42 => do
    let (v, d) ← d.read_u16
    .ok (.Catch v, d)
  | 0x43 => do
    let (v, d) ← d.read_u16
    .ok (.OffsetInstanceOf v, d)
  | 0x44 => do
    let (v, d) ← d.read_u16
    .ok (.OffsetNew v, d)
  | 0x45 => do
    let (v, d) ← d.read_u16
    .ok (.OffsetNewRef v, d)
  | 0x46 => do
    let (v, d) ← d.read_u16
    .ok (.OffsetRef v, d)
  | 0x47 => do
    let (offset, d) ← d.read_u16
    let (type_argument, d) ← d.read_u8
    .ok (.TypeArgumentCast offset type_argument, d)
  | 0x48 => do
    let (offset, d) ← d.read_u16
    let (type_argument, d) ← d.read_u8
    .ok (.TypeArgumentConstructor offset type_argument, d)
  | 0x49 => do
    let (offset, d) ← d.read_u16
    let (type_argument, d) ← d.read_u8
    .ok (.TypeArgumentMethod offset type_argument, d)
  | 0x4A => do
    let (offset, d) ← d.read_u16
    let (type_argument, d) ← d.read_u8
    .ok (.TypeArgumentNewRef offset type_argument, d)
  | 0x4B => do
    let (offset, d) ← d.read_u16
    let (type_argument, d) ← d.read_u8
    .ok (.TypeArgumentRef offset type_argument, d)
  | _ => .err .InvalidTargetType

/-- `parse_type_path` (`src/basic/src/parser/annotation.rs` lines
176-198). -/
def parse_type_path (d : Dec) : RRes (List TypePathElement × Dec) := do
  let (length, d) ← d.read_u8
  loopN (fun d => do
    let (k, d) ← d.read_u8
    let path_kind ←
      (match k with
      | 0x00 => pure TypePathKind.ArrayType
      | 0x01 => pure TypePathKind.NestedType
      | 0x02 => pure TypePathKind.WildcardType
      | 0x03 => pure TypePathKind.Type
      | _ => RRes.err .InvalidTypePath)
    let (argument_index, d) ← d.read_u8
    pure (TypePathElement.mk path_kind argument_index, d)) length d []

/-- `parse_annotation` (`src/basic/src/parser/annotation.rs` lines
34-48), parameterised by the element value parser it recurses through. -/
def parse_annot_with (pev : Dec → RRes (ElementValue × Dec)) (d : Dec) :
    RRes (Annot × Dec) := do
  let (type_index, d) ← d.read_u16
  let (count, d) ← d.read_u16
  let (element_value_pairs, d) ← loopN (fun d => do
    let (name_index, d) ← d.read_u16
    let (ev, d) ← pev d
    pure ((name_index, ev), d)) count d []
  .ok (Annot.mk type_index element_value_pairs, d)

/-- `parse_element_value` (`src/basic/src/parser/annotation.rs` lines
51-89).  The element value grammar recurses through nested values and
arrays; `fuel` drives the structural recursion (each recursive call
consumes at least one input byte, so any fuel beyond the input length is
enough; exhaustion is modelled as a panic and unreachable on adequately
fuelled calls). -/
def parse_element_value : Nat → Dec → RRes (ElementValue × Dec)
  | 0, _ => .panicked
  | fuel + 1, d => do
    let (tag, d) ← d.read_u8
    match tag with
    | 66 => do  -- b'B'
      let (v, d) ← d.read_u16
      pure (ElementValue.Byte v, d)
    | 83 => do  -- b'S'
      let (v, d) ← d.read_u16
      pure (ElementValue.Short v, d)
    | 67 => do  -- b'C'
      let (v, d) ← d.read_u16
      pure (ElementValue.Char v, d)
    | 73 => do  -- b'I'
      let (v, d) ← d.read_u16
      pure (ElementValue.Int v, d)
    | 74 => do  -- b'J'
      let (v, d) ← d.read_u16
      pure (ElementValue.Long v, d)
    | 70 => do  -- b'F'
      let (v, d) ← d.read_u16
      pure (ElementValue.Float v, d)
    | 68 => do  -- b'D'
      let (v, d) ← d.read_u16
      pure (ElementValue.Double v, d)
    | 90 => do  -- b'Z'
      let (v, d) ← d.read_u16
      pure (ElementValue.Boolean v, d)
    | 115 => do  -- b's'
      let (v, d) ← d.read_u16
      pure (ElementValue.String v, d)
    | 99 => do  -- b'c'
      let (v, d) ← d.read_u16
      pure (ElementValue.Class v, d)
    | 101 => do  -- b'e'
      let (type_name, d) ← d.read_u16
      let (const_name, d) ← d.read_u16
      pure (ElementValue.Enum type_name const_name, d)
    | 64 => do  -- b'@'
      let (a, d) ← parse_annot_with (parse_element_value fuel) d
      pure (ElementValue.annot a, d)
    | 91 => do  -- b'['
      let (count, d) ← d.read_u16
      let (element_values, d) ← loopN (parse_element_value fuel) count d []
      pure (ElementValue.Array element_values, d)
    | _ => .err (.InvalidElementValue tag)

/-- `parse_annotation` with its element value parser fuelled. -/
def parse_annot (fuel : Nat) (d : Dec) : RRes (Annot × Dec) :=
  parse_annot_with (parse_element_value fuel) d

/-- `parse_annotations` (`src/basic/src/parser/annotation.rs` lines
14-21). -/
def parse_annots (fuel : Nat) (d : Dec) : RRes (List Annot × Dec) := do
  let (count, d) ← d.read_u16
  loopN (parse_annot fuel) count d []

/-- `parse_parameter_annotations` (`src/basic/src/parser/annotation.rs`
lines 4-11); note the u8 count. -/
def parse_param_annots (fuel : Nat) (d : Dec) : RRes (List (List Annot) × Dec) := do
  let (count, d) ← d.read_u8
  loopN (parse_annots fuel) count d []

/-- `parse_type_annotation` (`src/basic/src/parser/annotation.rs` lines
92-101). -/
def parse_type_annot (fuel : Nat) (d : Dec) : RRes (TypeAnnot × Dec) := do
  let (target_type, d) ← parse_target_type d
  let (target_path, d) ← parse_type_path d
  let (a, d) ← parse_annot fuel d
  .ok (TypeAnnot.mk target_type target_path a, d)

/-- `parse_type_annotations` (`src/basic/src/parser/annotation.rs` lines
24-31). -/
def parse_type_annots (fuel : Nat) (d : Dec) : RRes (List TypeAnnot × Dec) := do
  let (count, d) ← d.read_u16
  loopN (parse_type_annot fuel) count d []

/-- The instruction loop of `parse_code` (`src/src/basic/parser/code.rs`
lines 20-31): parse instructions, inserting each at its offset, until the
returned end equals `code_length`.  Each round consumes at least one byte,
so fuel of at least `code_length + 1` can never be exhausted. -/
def parse_code_insns : Nat → Dec → Nat → Nat → List (Nat × Instruction) →
    RRes (List (Nat × Instruction) × Dec)
  | 0, _, _, _, _ => .panicked
  | fuel + 1, d, code_location, code_length, acc => do
    let r ← parse_instruction d code_location
    -- the shared cursor advanced by the bytes the instruction consumed,
    -- which is the returned end offset minus the start offset
    let d := { d with cursor := d.cursor + (r.1 - code_location) }
    let acc := acc ++ [(code_location, r.2)]
    if r.1 = code_length then .ok (acc, d)
    else parse_code_insns fuel d r.1 code_length acc

/-- `parse_code` (`src/src/basic/parser/code.rs` lines 7-61),
parameterised by the attribute parser `pa` used for the nested attribute
list (the source is mutually recursive with `parse_attributes`). -/
def parse_code_with (pa : Dec → Pool → RRes (List Attribute × Dec))
    (fuel : Nat) (d : Dec) (constant_pool : Pool) : RRes (Attribute × Dec) := do
  let (max_stack, d) ← d.read_u16
  let (max_locals, d) ← d.read_u16
  let (code_length, d) ← d.read_u32
  let code_decoder ← d.lim code_length
  let (instructions, cd) ← parse_code_insns fuel code_decoder 0 code_length []
  let _ ← cd.remove_limit
  let d := { cd with limit := d.limit }
  let (exception_count, d) ← d.read_u16
  let (exceptions, d) ← loopN (fun d => do
    let (start, d) ← d.read_u16
    let (en, d) ← d.read_u16
    let (handler, d) ← d.read_u16
    let (catch_type, d) ← d.read_u16
    pure (ExcEntry.mk start en handler catch_type, d)) exception_count d []
  let (attributes, d) ← pa d constant_pool
  .ok (.Code max_stack max_locals instructions exceptions attributes, d)

/-- One round of the attribute loop of `parse_attributes`
(`src/src/basic/parser/mod.rs` lines 215-294): resolve the name, derive
the length-limited sub-reader, dispatch on the name string (in source
order — note the source string `"EnclosingMethods"`), and require the
limit to be exactly consumed. -/
def parse_attr (pa : Dec → Pool → RRes (List Attribute × Dec)) (fuel : Nat)
    (d : Dec) (constant_pool : Pool) : RRes (Attribute × Dec) := do
  let (name_index, d) ← d.read_u16
  let name ← constant_pool.get_utf8 name_index
  let (length, d) ← d.read_u32
  let attr_decoder ← d.lim length
  let (attr, ad) ←
    (if name = "AnnotationDefault".toList then do
      let (ev, ad) ← parse_element_value fuel attr_decoder
      pure (Attribute.AnnotationDefault ev, ad)
    else if name = "BootstrapMethods".toList then
      parse_bootstrap_methods attr_decoder
    else if name = "Code".toList then
      parse_code_with pa fuel attr_decoder constant_pool
    else if name = "ConstantValue".toList then do
      let (index, ad) ← attr_decoder.read_u16
      pure (Attribute.ConstantValue index, ad)
    else if name = "Deprecated".toList then
      pure (Attribute.Deprecated, attr_decoder)
    else if name = "EnclosingMethods".toList then
      parse_enclosing_method attr_decoder
    else if name = "Exceptions".toList then
      parse_exceptions attr_decoder
    else if name = "InnerClasses".toList then
      parse_inner_classes attr_decoder
    else if name = "LineNumberTable".toList then
      parse_line_number_table attr_decoder
    else if name = "LocalVariableTable".toList then
      parse_local_variable_table attr_decoder
    else if name = "LocalVariableTypeTable".toList then
      parse_local_variable_type_table attr_decoder
    else if name = "MethodParameters".toList then
      parse_method_parameters attr_decoder
    else if name = "Module".toList then
      parse_module attr_decoder
    else if name = "ModuleMainClass".toList then do
      let (index, ad) ← attr_decoder.read_u16
      pure (Attribute.ModuleMainClass index, ad)
    else if name = "ModulePackages".toList then
      parse_module_packages attr_decoder
    else if name = "RuntimeVisibleAnnotations".toList then do
      let (xs, ad) ← parse_annots fuel attr_decoder
      pure (Attribute.RuntimeVisibleAnnotations xs, ad)
    else if name = "RuntimeInvisibleAnnotations".toList then do
      let (xs, ad) ← parse_annots fuel attr_decoder
      pure (Attribute.RuntimeInvisibleAnnotations xs, ad)
    else if name = "RuntimeVisibleParameterAnnotations".toList then do
      let (xs, ad) ← parse_param_annots fuel attr_decoder
      pure (Attribute.RuntimeVisibleParameterAnnotations xs, ad)
    else if name = "RuntimeInvisibleParameterAnnotations".toList then do
      let (xs, ad) ← parse_param_annots fuel attr_decoder
      pure (Attribute.RuntimeInvisibleParameterAnnotations xs, ad)
    else if name = "RuntimeVisibleTypeAnnotations".toList then do
      let (xs, ad) ← parse_type_annots fuel attr_decoder
      pure (Attribute.RuntimeVisibleTypeAnnotations xs, ad)
    else if name = "RuntimeInvisibleTypeAnnotations".toList then do
      let (xs, ad) ← parse_type_annots fuel attr_decoder
      pure (Attribute.RuntimeInvisibleTypeAnnotations xs, ad)
    else if name = "SourceFile".toList then do
      let (index, ad) ← attr_decoder.read_u16
      pure (Attribute.SourceFile index, ad)
    else if name = "Signature".toList then do
      let (index, ad) ← attr_decoder.read_u16
      pure (Attribute.Signature index, ad)
    else if name = "StackMapTable".toList then
      parse_stack_map_table attr_decoder
    else if name = "Synthetic".toList then
      pure (Attribute.Synthetic, attr_decoder)
    else if name = "SourceDebugExtension".toList then do
      let (s, ad) ← attr_decoder.read_str length
      pure (Attribute.SourceDebugExtension s, ad)
    else do
      let (bytes, ad) ← attr_decoder.read_bytes length
      pure (Attribute.Unknown name_index bytes, ad))
  let _ ← ad.remove_limit
  .ok (attr, { ad with limit := d.limit })

/-- `parse_attributes` (`src/src/basic/parser/mod.rs` lines 212-297).
The mutual recursion with `parse_code` is broken by the structurally
decreasing `fuel` (the recursion nests at most once per enclosing
attribute, and each level consumes input, so any fuel beyond the input
length is enough; exhaustion is modelled as a panic). -/
def parse_attrs : Nat → Dec → Pool → RRes (List Attribute × Dec)
  | 0, _, _ => .panicked
  | fuel + 1, d, constant_pool => do
    let (count, d) ← d.read_u16
    loopN (fun d => parse_attr (parse_attrs fuel) fuel d constant_pool)
      count d []

/-- `enum Type` of `src/src/types.rs` (rendered `JType`: `Type` is a Lean
keyword). -/
inductive JType where
  | Boolean | Byte | Short | Int | Long | Float | Double | Char
  | Reference : List Char → JType
deriving DecidableEq, Repr

/-- `struct TypeDescriptor` of `src/src/types.rs`. -/
structure TypeDescriptor where
  dimensions : Nat
  base_type : JType
deriving DecidableEq, Repr

/-- `struct MethodDescriptor` of `src/src/types.rs`. -/
structure MethodDescriptor where
  params : List TypeDescriptor
  return_type : Option TypeDescriptor
deriving DecidableEq, Repr

/-- The primitive tag characters of the descriptor grammar
(`'Z' | 'B' | 'S' | 'I' | 'J' | 'F' | 'D' | 'C'`). -/
def prim_tag : Char → Option JType
  | 'Z' => some .Boolean
  | 'B' => some .Byte
  | 'S' => some .Short
  | 'I' => some .Int
  | 'J' => some .Long
  | 'F' => some .Float
  | 'D' => some .Double
  | 'C' => some .Char
  | _ => none

/-- The tail of `MethodDescriptor::from_str` (`src/src/types.rs` lines
365-369): after `'type_loop` ends, any remaining characters or more than
255 parameters are an error at the current offset `i`. -/
def md_finish (chars : List Char) (i : Nat) (params : List TypeDescriptor)
    (ret : Option TypeDescriptor) (orig : List Char) : RRes MethodDescriptor :=
  if chars.length ≠ 0 ∨ params.length > 255 then .err (.InvalidDescriptor orig i)
  else .ok (MethodDescriptor.mk params ret)

/-- The `'type_loop` state machine of `MethodDescriptor::from_str`
(`src/src/types.rs` lines 289-363).  `state` is 0 before the `)` and 1
after it; `in_name` selects the reference-name loop (lines 342-360);
`i` is the error offset, incremented per consumed character; `dims` is
the `u8` dimension counter (`checked_add` fails at 255). -/
def md_scan (chars : List Char) (i : Nat) (state : Nat)
    (params : List TypeDescriptor) (ret : Option TypeDescriptor) (dims : Nat)
    (in_name : Bool) (name : List Char) (orig : List Char) : RRes MethodDescriptor :=
  match chars with
  | [] =>
    -- both loops exhaust the iterator without a break: err!() at line 362
    .err (.InvalidDescriptor orig i)
  | ch :: rest =>
    if in_name then
      if ch = ';' then
        if name.length = 0 then .err (.InvalidDescriptor orig (i + 1))
        else if state = 0 then
          md_scan rest (i + 1) state (params ++ [⟨dims, .Reference name⟩]) ret
            0 false [] orig
        else
          md_finish rest (i + 1) params (some ⟨dims, .Reference name⟩) orig
      else
        md_scan rest (i + 1) state params ret dims true (name ++ [ch]) orig
    else
      if ch = '[' then
        if dims = 255 then .err (.InvalidDescriptor orig (i + 1))
        else md_scan rest (i + 1) state params ret (dims + 1) false [] orig
      else if state = 0 ∧ ch = ')' then
        if dims ≠ 0 then .err (.InvalidDescriptor orig (i + 1))
        else md_scan rest (i + 1) 1 params ret dims false [] orig
      else if state = 1 ∧ ch = 'V' then
        if dims ≠ 0 then .err (.InvalidDescriptor orig (i + 1))
        else md_finish rest (i + 1) params ret orig
      else
        match prim_tag ch with
        | some t =>
          if state = 0 then
            md_scan rest (i + 1) state (params ++ [⟨dims, t⟩]) ret 0 false [] orig
          else
            md_finish rest (i + 1) params (some ⟨dims, t⟩) orig
        | none =>
          if ch = 'L' then md_scan rest (i + 1) state params ret dims true [] orig
          else .err (.InvalidDescriptor orig (i + 1))

/-- `MethodDescriptor::from_str` (`src/src/types.rs` lines 265-371). -/
def md_from_str (desc : List Char) : RRes MethodDescriptor :=
  match desc with
  | '(' :: rest => md_scan rest 0 0 [] none 0 false [] desc
  | _ => .err (.InvalidDescriptor desc 0)

/-- `TypeDescriptor`'s `Display` implementation (`src/src/types.rs` lines
181-197). -/
def td_to_string (t : TypeDescriptor) : List Char :=
  List.replicate t.dimensions '[' ++
    (match t.base_type with
    | .Boolean => ['Z']
    | .Byte => ['B']
    | .Short => ['S']
    | .Int => ['I']
    | .Long => ['J']
    | .Float => ['F']
    | .Double => ['D']
    | .Char => ['C']
    | .Reference name => 'L' :: name ++ [';'])

/-- `MethodDescriptor`'s `Display` implementation (`src/src/types.rs`
lines 388-399). -/
def md_to_string (m : MethodDescriptor) : List Char :=
  '(' :: (m.params.map td_to_string).flatten ++ [')'] ++
    (match m.return_type with
    | some ret => td_to_string ret
    | none => ['V'])

/-- The padding width the specification prescribes for `tableswitch` and
`lookupswitch` at instruction offset `at = a`: `(-(at+1)) mod 4`, written
for naturals as `(4 - (a + 1) % 4) % 4`. -/
def switch_pad_spec (a : Nat) : Nat :=
  (4 - (a + 1) % 4) % 4

/-- The tableswitch read exactly as the specification words it: skip
`(-(at+1)) mod 4` padding bytes, then read `default`, `low`, `high` and
`high - low + 1` i32 offsets. -/
def ts_spec_arm (d : Dec) (a : Nat) : RRes (Instruction × Dec) := do
  let d ← d.skip (switch_pad_spec a)
  let (dflt, d) ← d.read_i32
  let (low, d) ← d.read_i32
  let (high, d) ← d.read_i32
  let (offsets, d) ← read_i32_list (high - low + 1).toNat d []
  pure (Instruction.TableSwitch dflt low high offsets, d)

/-- The lookupswitch read exactly as the specification words it: skip
`(-(at+1)) mod 4` padding bytes, then read `default`, `npairs` and
`npairs` `(match, offset)` pairs collected into the ordered map. -/
def ls_spec_arm (d : Dec) (a : Nat) : RRes (Instruction × Dec) := do
  let d ← d.skip (switch_pad_spec a)
  let (dflt, d) ← d.read_i32
  let (count, d) ← d.read_u32
  let (offsets, d) ← read_lookup_pairs count d []
  pure (Instruction.LookupSwitch dflt offsets, d)

/-- The switch decoding procedure exactly as the specification words it:
read the opcode, then run the spec-worded tableswitch or lookupswitch
read; the result is the same `(end offset, instruction)` pair shape
`parse_instruction` returns. -/
def switch_spec_read (d0 : Dec) (a : Nat) : RRes (Nat × Instruction) := do
  let (op_code, d) ← d0.read_u8
  match op_code with
  | 0xAA => ts_spec_arm d a >>= fun x => .ok (a + (x.2.cursor - d0.cursor), x.1)
  | 0xAB => ls_spec_arm d a >>= fun x => .ok (a + (x.2.cursor - d0.cursor), x.1)
  | _ => .err (.InvalidInstruction op_code a)

/-- The `(default, low, high)` head a tableswitch decoder starting at `d`
(positioned after the opcode byte, instruction offset `a`) would read:
skip the padding, then three i32 reads.  `none` when any step fails. -/
def ts_fields (d : Dec) (a : Nat) : Option (Int × Int × Int) :=
  match Dec.skip d (3 - (a &&& 3)) with
  | .ok d1 =>
    match Dec.read_i32 d1 with
    | .ok (df, d2) =>
      match Dec.read_i32 d2 with
      | .ok (lo, d3) =>
        match Dec.read_i32 d3 with
        | .ok (hi, _) => some (df, lo, hi)
        | _ => none
      | _ => none
    | _ => none
  | _ => none

/-! ## Theorems -/

/-- On every reachable pool the stored `u16` length equals the slot count
plus one, up to the `u16` wrap. -/
theorem Pool.reachable_length (p : Pool) (h : p.Reachable) :
    (p.by_index.length + 1) % 65536 = p.length := by
  induction h with
  | new => rfl
  | push hr hp ih =>
    rename_i q it i q'
    unfold Pool.push at hp
    by_cases hl : q.len = 65535
    · simp [hl] at hp
    · simp only [hl, if_false] at hp
      cases hlk : lookup_entry q.by_entry it with
      | some idx =>
        rw [hlk] at hp
        simp at hp
        rw [← hp.2]
        exact ih
      | none =>
        rw [hlk] at hp
        by_cases hd : it.is_double
        · simp [hd] at hp
          rw [← hp.2]
          simp only [List.length_append, List.length_cons, List.length_nil]
          omega
        · simp [hd] at hp
          rw [← hp.2]
          simp only [List.length_append, List.length_cons, List.length_nil]
          omega
  | push_duplicate hr hp ih =>
    rename_i q it i q'
    unfold Pool.push_duplicate at hp
    by_cases hl : q.len = 65535
    · simp [hl] at hp
    · simp only [hl, if_false] at hp
      by_cases hd : it.is_double
      · simp [hd] at hp
        rw [← hp.2]
        simp only [List.length_append, List.length_cons, List.length_nil]
        omega
      · simp [hd] at hp
        rw [← hp.2]
        simp only [List.length_append, List.length_cons, List.length_nil]
        omega

/-- C1: for every pool reachable by push / push_duplicate, the claim says
`get(i)` returns `Err(InvalidCPItem(i))` for every out-of-range `u16`
index and never panics, in particular at `i = len()`.  The code's bounds
check `index != 0 && index <= self.len()` is off by one: at `i = len()`
it indexes `by_index[len() - 1]`, one past the last slot, and panics. -/
theorem c1_pool_get_len_panics (p : Pool) (h : p.Reachable)
    (hlt : p.by_index.length + 1 < 65536) :
    p.get p.len = .panicked := by
  have hinv := Pool.reachable_length p h
  have hl : p.length = p.by_index.length + 1 := by omega
  unfold Pool.get Pool.len
  rw [if_pos (by constructor <;> omega)]
  have hn : p.by_index.get? (p.length - 1) = none := by
    rw [List.get?_eq_none]
    omega
  rw [hn]

/-- C1 witness: the empty pool `Pool::new()` has `len() = 1`, and
`get(1)` panics. -/
theorem c1_pool_get_len_panics_witness :
    Pool.get Pool.new (Pool.len Pool.new) = .panicked :=
  c1_pool_get_len_panics Pool.new Pool.Reachable.new (by decide)

/-- C6: the claim says a push of a Long or Double on a pool with
`len() = 0xFFFE` fails with `CPTooLarge` rather than wrapping the u16
length.  The code's only capacity check is `len() == 0xFFFF`, so the push
succeeds and `length += 2` wraps the `u16` to 0 (a debug build panics on
the overflow instead); either behaviour contradicts the claim. -/
theorem c6_push_wide_overflow (p : Pool) (it : Item)
    (h1 : p.len = 65534) (h2 : it.is_double = true)
    (h3 : lookup_entry p.by_entry it = none) :
    p.push it = .ok (65534,
      { length := 0,
        by_index := p.by_index ++ [some it, none],
        by_entry := (it, 65534) :: p.by_entry }) := by
  have h1' : p.length = 65534 := h1
  unfold Pool.push
  rw [if_neg (by rw [h1]; omega)]
  rw [h3]
  simp only [h2, if_true, h1']

/-- C6 witness: a pool whose `u16` length field reached 0xFFFE (65533
narrow items were pushed; only the length and the absence of an equal
entry matter to `push`), pushing `Long(0)`: the result is `Ok(65534)`
with the length wrapped to 0, not `Err(CPTooLarge)`. -/
theorem c6_push_wide_overflow_witness :
    Pool.push ⟨65534, [], []⟩ (.Long 0) =
      .ok (65534, ⟨0, [some (.Long 0), none], [(.Long 0, 65534)]⟩) :=
  c6_push_wide_overflow ⟨65534, [], []⟩ (.Long 0) rfl rfl rfl

/-- C2: the claim says `U+0000` encodes to `C0 80` (true), that a string
containing `U+1F600` encodes to six bytes whose units begin `ED A0` and
`ED B8`, and that decode∘encode is the identity on all scalar strings.
`write_str` omits the `cp - 0x10000` bias and shifts by 12 instead of 10,
emitting `ED A1 9F ED B8 80` (second byte `A1`, not `A0`), and
`read_str` rejects the very bytes the encoder produced (its surrogate
branch demands six more budget bytes instead of three), so the round
trip fails with `InvalidUTF8` at the supplementary character. -/
theorem c2_modified_utf8_surrogate_bug :
    write_str [Char.ofNat 0] = [0xC0, 0x80] ∧
    Dec.read_str (Dec.new (write_str [Char.ofNat 0]))
      (write_str [Char.ofNat 0]).length = .ok ([Char.ofNat 0], ⟨[0xC0, 0x80], 2, 2⟩) ∧
    write_str [Char.ofNat 0x1F600] = [0xED, 0xA1, 0x9F, 0xED, 0xB8, 0x80] ∧
    Dec.read_str (Dec.new (write_str [Char.ofNat 0x1F600]))
      (write_str [Char.ofNat 0x1F600]).length = .err .InvalidUTF8 := by
  refine ⟨by decide, by decide, by decide, by decide⟩

/-- C10: the claim says `read_str` never underflows its remaining-byte
counter and consumes at most the declared length: with one declared byte
left and a two-byte lead (`C0`) next it should return an error.  The
code's two-byte branch is guarded by `i >= 1` instead of `i >= 2`, so
`i -= 2` underflows the `usize`: a panic under the debug overflow checks
(and in release the wrapped counter keeps the loop consuming past the
declared length). -/
theorem c10_read_str_budget_underflow :
    Dec.read_str (Dec.new [0xC0, 0x80]) 1 = .panicked := by decide

/-- C3: the claim says `write` re-serializes every attribute with a
length-prefixed body, re-encoding a Code attribute holding `BIPush(5)` as
the code bytes `10 05`.  Parsing `10 05` does yield `BIPush(5)`, but
`write_attributes` is the stub `// implement later`: it emits only a zero
attribute count (`00 00`) and drops every attribute body, so no `10 05`
is ever re-emitted. -/
theorem c3_write_attributes_stub :
    parse_instruction (Dec.new [0x10, 0x05]) 0 = .ok (2, .BIPush 5) ∧
    write_attributes [.Code 3 1 [(0, .BIPush 5)] [] []] = [0, 0] ∧
    ¬ [0x10, 0x05] <:+: write_attributes [.Code 3 1 [(0, .BIPush 5)] [] []] :=
  ⟨rfl, rfl, by decide⟩

/-- C4: the claim says the u16 length field before a written UTF8 item
equals the number of modified-UTF-8 bytes emitted, including for strings
with `U+0000` or supplementary code points.  The code writes
`s.len() as u16` — the standard-UTF-8 byte count: for the one-character
string `U+0000` the field says 1 but 2 bytes (`C0 80`) follow, and for
`U+1F600` the field says 4 but 6 bytes follow. -/
theorem c4_utf8_length_field_bug :
    write_item (.UTF8 [Char.ofNat 0]) = [1, 0, 1, 0xC0, 0x80] ∧
    rust_str_len [Char.ofNat 0] = 1 ∧
    (write_str [Char.ofNat 0]).length = 2 ∧
    write_item (.UTF8 [Char.ofNat 0x1F600]) =
      [1, 0, 4, 0xED, 0xA1, 0x9F, 0xED, 0xB8, 0x80] ∧
    rust_str_len [Char.ofNat 0x1F600] = 4 ∧
    (write_str [Char.ofNat 0x1F600]).length = 6 := by
  refine ⟨by decide, by decide, by decide, by decide, by decide, by decide⟩

/-- C5: the claim says the wide prefix `C4` widens `astore` (0x3A) like
the other local-variable opcodes and rejects any other second opcode.
The code's wide table works for `iload` (and the claim's other listed
opcodes, e.g. `iinc`), but lists `0x40` (the `lstore_1` opcode) instead
of `0x3A`: `C4 3A` fails with `InvalidInstruction{op_code: C4}` and
`C4 40` is accepted as a wide `AStore`. -/
theorem c5_wide_astore_bug :
    parse_instruction (Dec.new [0xC4, 0x15, 0x00, 0x05]) 0 = .ok (4, .ILoad 5) ∧
    parse_instruction (Dec.new [0xC4, 0x84, 0x00, 0x05, 0xFF, 0xFE]) 0 =
      .ok (6, .IInc 5 (-2)) ∧
    parse_instruction (Dec.new [0xC4, 0x3A, 0x00, 0x05]) 0 =
      .err (.InvalidInstruction 0xC4 0) ∧
    parse_instruction (Dec.new [0xC4, 0x40, 0x00, 0x05]) 0 = .ok (4, .AStore 5) :=
  ⟨rfl, rfl, rfl, rfl⟩

/-- C7: the claim says an attribute whose name resolves to
"EnclosingMethod" produces the `EnclosingMethod` variant and only names
outside the data-model list produce `Unknown`.  The dispatch string in
the source is misspelled "EnclosingMethods": the JVMS name
"EnclosingMethod" falls through to `Unknown` (body preserved verbatim),
while the nonstandard name "EnclosingMethods" is the one parsed into the
`EnclosingMethod` variant. -/
theorem c7_enclosing_method_dispatch_bug :
    parse_attrs 10 (Dec.new [0, 1, 0, 1, 0, 0, 0, 4, 0, 2, 0, 3])
      ⟨2, [some (.UTF8 "EnclosingMethod".toList)],
        [(.UTF8 "EnclosingMethod".toList, 1)]⟩ =
      .ok ([.Unknown 1 [0, 2, 0, 3]],
        ⟨[0, 1, 0, 1, 0, 0, 0, 4, 0, 2, 0, 3], 12, 12⟩) ∧
    parse_attrs 10 (Dec.new [0, 1, 0, 1, 0, 0, 0, 4, 0, 2, 0, 3])
      ⟨2, [some (.UTF8 "EnclosingMethods".toList)],
        [(.UTF8 "EnclosingMethods".toList, 1)]⟩ =
      .ok ([.EnclosingMethod 2 3],
        ⟨[0, 1, 0, 1, 0, 0, 0, 4, 0, 2, 0, 3], 12, 12⟩) :=
  ⟨rfl, rfl⟩

/-- C8 counterexample: parsing `"(Ljava/lang/String;II)[D"` yields a
return type with 1 dimension (the string has a single `[`), not the 2
dimensions the claim states. -/
theorem c8_descriptor_counterexample :
    md_from_str "(Ljava/lang/String;II)[D".toList =
      .ok ⟨[⟨0, .Reference "java/lang/String".toList⟩, ⟨0, .Int⟩, ⟨0, .Int⟩],
        some ⟨1, .Double⟩⟩ ∧
    md_from_str "(Ljava/lang/String;II)[D".toList ≠
      .ok ⟨[⟨0, .Reference "java/lang/String".toList⟩, ⟨0, .Int⟩, ⟨0, .Int⟩],
        some ⟨2, .Double⟩⟩ := by
  refine ⟨by decide, by decide⟩

/-- C8 (amended): parsing `"(Ljava/lang/String;II)[D"` succeeds with
params `[Reference("java/lang/String"), Int, Int]` and return type
`Some(1 dimension, Double)`, and formatting the parsed value yields
exactly the original string. -/
theorem c8_descriptor_parse_format :
    md_from_str "(Ljava/lang/String;II)[D".toList =
      .ok ⟨[⟨0, .Reference "java/lang/String".toList⟩, ⟨0, .Int⟩, ⟨0, .Int⟩],
        some ⟨1, .Double⟩⟩ ∧
    md_to_string ⟨[⟨0, .Reference "java/lang/String".toList⟩, ⟨0, .Int⟩, ⟨0, .Int⟩],
      some ⟨1, .Double⟩⟩ = "(Ljava/lang/String;II)[D".toList := by
  refine ⟨by decide, by decide⟩

theorem rres_bind_ok {α β : Type} (a : α) (f : α → RRes β) :
    (RRes.ok a >>= f) = f a := rfl

theorem rres_bind_err {α β : Type} (e : Error) (f : α → RRes β) :
    (RRes.err e >>= f) = .err e := rfl

theorem rres_bind_panicked {α β : Type} (f : α → RRes β) :
    (RRes.panicked >>= f) = .panicked := rfl

/-- The code's padding width `3 - (at & 3)` equals the specification's
`(-(at+1)) mod 4`. -/
theorem switch_pad_eq (a : Nat) : 3 - (a &&& 3) = switch_pad_spec a := by
  have h : a &&& 3 = a % 4 := by
    simpa using Nat.and_pow_two_sub_one_eq_mod a 2
  unfold switch_pad_spec
  omega

theorem toI32_range (n : Nat) :
    -2147483648 ≤ toI32 n ∧ toI32 n < 2147483648 := by
  unfold toI32
  dsimp only
  split <;> omega

theorem wrap32_id (z : Int) (h1 : -2147483648 ≤ z) (h2 : z < 2147483648) :
    wrap32 z = z := by
  unfold wrap32
  omega

theorem read_i32_ok_range (x y : Dec) (v : Int) (h : x.read_i32 = .ok (v, y)) :
    -2147483648 ≤ v ∧ v < 2147483648 := by
  unfold Dec.read_i32 at h
  cases hu : x.read_u32 with
  | ok p =>
    obtain ⟨u, z⟩ := p
    rw [hu] at h
    simp only [rres_bind_ok] at h
    cases h
    exact toI32_range u
  | err e =>
    rw [hu] at h
    simp only [rres_bind_err] at h
    cases h
  | panicked =>
    rw [hu] at h
    simp only [rres_bind_panicked] at h
    cases h

/-- C9 counterexample: a 16-byte tableswitch at offset 0 with
`default = 0`, `low = 0`, `high = 0x7FFFFFFF` (i32::MAX).  The claim says
the decoder then reads `high - low + 1 = 2^31` i32 offsets (which on this
input would end in `LimitExceeded`, as the spec-side reader does).  The
code instead evaluates `Vec::with_capacity((high - low + 1) as usize)`:
the wrapped i32 is negative, the usize cast is astronomical, and
`Vec::with_capacity` panics with a capacity overflow. -/
theorem c9_switch_count_wrap_counterexample :
    parse_instruction
      (Dec.new [0xAA, 0, 0, 0, 0, 0, 0, 0, 0, 0, 0, 0, 0x7F, 0xFF, 0xFF, 0xFF])
      0 = .panicked ∧
    switch_spec_read
      (Dec.new [0xAA, 0, 0, 0, 0, 0, 0, 0, 0, 0, 0, 0, 0x7F, 0xFF, 0xFF, 0xFF])
      0 = .err .LimitExceeded :=
  ⟨rfl, rfl⟩

set_option maxRecDepth 16384 in
/-- `parse_instruction` at a `tableswitch` opcode is the `ts_arm`
computation followed by the end-offset wrapper. -/
theorem parse_instruction_aa (d d1 : Dec) (a : Nat)
    (hr : d.read_u8 = .ok (0xAA, d1)) :
    parse_instruction d a =
      ts_arm d1 a >>= fun x => RRes.ok (a + (x.2.cursor - d.cursor), x.1) := by
  unfold parse_instruction
  rw [hr]
  rfl

set_option maxRecDepth 16384 in
/-- `parse_instruction` at a `lookupswitch` opcode is the `ls_arm`
computation followed by the end-offset wrapper. -/
theorem parse_instruction_ab (d d1 : Dec) (a : Nat)
    (hr : d.read_u8 = .ok (0xAB, d1)) :
    parse_instruction d a =
      ls_arm d1 a >>= fun x => RRes.ok (a + (x.2.cursor - d.cursor), x.1) := by
  unfold parse_instruction
  rw [hr]
  rfl

theorem switch_spec_read_aa (d d1 : Dec) (a : Nat)
    (hr : d.read_u8 = .ok (0xAA, d1)) :
    switch_spec_read d a =
      ts_spec_arm d1 a >>= fun x => RRes.ok (a + (x.2.cursor - d.cursor), x.1) := by
  unfold switch_spec_read
  rw [hr]
  rfl

theorem switch_spec_read_ab (d d1 : Dec) (a : Nat)
    (hr : d.read_u8 = .ok (0xAB, d1)) :
    switch_spec_read d a =
      ls_spec_arm d1 a >>= fun x => RRes.ok (a + (x.2.cursor - d.cursor), x.1) := by
  unfold switch_spec_read
  rw [hr]
  rfl

/-- Under the stated bounds the code arm equals the spec arm
(tableswitch). -/
theorem ts_arm_eq_spec (d1 : Dec) (a : Nat)
    (hts : ∀ df lo hi, ts_fields d1 a = some (df, lo, hi) →
      0 ≤ hi - lo + 1 ∧ hi - lo + 1 < 2147483648 ∧ hi ≠ 2147483647) :
    ts_arm d1 a = ts_spec_arm d1 a := by
  unfold ts_arm ts_spec_arm
  rw [switch_pad_eq]
  cases hsk : Dec.skip d1 (switch_pad_spec a) with
  | ok d2 =>
    simp only [hsk, rres_bind_ok]
    cases hdf : Dec.read_i32 d2 with
    | ok pdf =>
      obtain ⟨df, d3⟩ := pdf
      simp only [hdf, rres_bind_ok]
      cases hlo : Dec.read_i32 d3 with
      | ok plo =>
        obtain ⟨lo, d4⟩ := plo
        simp only [hlo, rres_bind_ok]
        cases hhi : Dec.read_i32 d4 with
        | ok phi =>
          obtain ⟨hi, d5⟩ := phi
          simp only [hhi, rres_bind_ok]
          have hfld : ts_fields d1 a = some (df, lo, hi) := by
            simp only [ts_fields, switch_pad_eq, hsk, hdf, hlo, hhi]
          obtain ⟨hb1, hb2, hb3⟩ := hts df lo hi hfld
          have hhir := read_i32_ok_range d4 d5 hi hhi
          have hw1 : wrap32 (hi - lo + 1) = hi - lo + 1 :=
            wrap32_id _ (by omega) (by omega)
          have hw2 : wrap32 (hi + 1) = hi + 1 :=
            wrap32_id _ (by omega) (by omega)
          rw [hw1, if_neg (by omega), hw2,
            show hi + 1 - lo = hi - lo + 1 by ring]
        | err e => simp only [hhi, rres_bind_err]
        | panicked => simp only [hhi, rres_bind_panicked]
      | err e => simp only [hlo, rres_bind_err]
      | panicked => simp only [hlo, rres_bind_panicked]
    | err e => simp only [hdf, rres_bind_err]
    | panicked => simp only [hdf, rres_bind_panicked]
  | err e => simp only [hsk, rres_bind_err]
  | panicked => simp only [hsk, rres_bind_panicked]

/-- The code arm equals the spec arm unconditionally (lookupswitch). -/
theorem ls_arm_eq_spec (d1 : Dec) (a : Nat) :
    ls_arm d1 a = ls_spec_arm d1 a := by
  unfold ls_arm ls_spec_arm
  rw [switch_pad_eq]

/-- C9 (amended): whenever the next opcode is `tableswitch` (0xAA) or
`lookupswitch` (0xAB), `parse_instruction` behaves exactly as the claim
words it — skip `(-(at+1)) mod 4` padding bytes (0..3 of them, placing
the first operand byte at an offset divisible by 4 relative to the code
start), then read `default`/`low`/`high` followed by `high-low+1` i32
offsets, resp. `default`/`npairs` followed by `npairs` `(match, offset)`
pairs — provided (for tableswitch) the decoded bounds satisfy
`0 ≤ high-low+1 < 2^31` and `high ≠ i32::MAX`; outside that proviso the
code's wrapping i32 arithmetic deviates from the claim (see the
counterexample). -/
theorem c9_switch_padding :
    (∀ (d d1 : Dec) (a op : Nat),
      d.read_u8 = .ok (op, d1) →
      op = 0xAA ∨ op = 0xAB →
      (op = 0xAA → ∀ df lo hi, ts_fields d1 a = some (df, lo, hi) →
        0 ≤ hi - lo + 1 ∧ hi - lo + 1 < 2147483648 ∧ hi ≠ 2147483647) →
      parse_instruction d a = switch_spec_read d a) ∧
    (∀ a : Nat, 3 - (a &&& 3) = switch_pad_spec a ∧
      (a + 1 + switch_pad_spec a) % 4 = 0 ∧ switch_pad_spec a < 4) := by
  constructor
  · intro d d1 a op hr hop hts
    rcases hop with rfl | rfl
    · rw [parse_instruction_aa d d1 a hr, switch_spec_read_aa d d1 a hr,
        ts_arm_eq_spec d1 a (hts rfl)]
    · rw [parse_instruction_ab d d1 a hr, switch_spec_read_ab d d1 a hr,
        ls_arm_eq_spec d1 a]
  · intro a
    refine ⟨switch_pad_eq a, ?_, ?_⟩ <;> (unfold switch_pad_spec; omega)

/-- C9 witness: the spec's concrete scenario — a `nop` at offset 0 and a
tableswitch at offset 1 with two padding bytes, `default = 0`, `low = 0`,
`high = 1` and offsets `[0, 5]` — decoded by `parse_instruction` exactly
as the specification-worded reader decodes it. -/
theorem c9_switch_padding_witness :
    parse_instruction
      ⟨[0x00, 0xAA, 0x00, 0x00, 0, 0, 0, 0, 0, 0, 0, 0,
        0, 0, 0, 1, 0, 0, 0, 0, 0, 0, 0, 5], 1, 24⟩ 1 =
      switch_spec_read
        ⟨[0x00, 0xAA, 0x00, 0x00, 0, 0, 0, 0, 0, 0, 0, 0,
          0, 0, 0, 1, 0, 0, 0, 0, 0, 0, 0, 5], 1, 24⟩ 1 ∧
    parse_instruction
      ⟨[0x00, 0xAA, 0x00, 0x00, 0, 0, 0, 0, 0, 0, 0, 0,
        0, 0, 0, 1, 0, 0, 0, 0, 0, 0, 0, 5], 1, 24⟩ 1 =
      .ok (24, .TableSwitch 0 0 1 [0, 5]) := by
  constructor
  · refine c9_switch_padding.1 _
      ⟨[0x00, 0xAA, 0x00, 0x00, 0, 0, 0, 0, 0, 0, 0, 0,
        0, 0, 0, 1, 0, 0, 0, 0, 0, 0, 0, 5], 2, 24⟩ 1 0xAA rfl (Or.inl rfl) ?_
    intro _ df lo hi h
    rw [show ts_fields
        ⟨[0x00, 0xAA, 0x00, 0x00, 0, 0, 0, 0, 0, 0, 0, 0,
          0, 0, 0, 1, 0, 0, 0, 0, 0, 0, 0, 5], 2, 24⟩ 1 =
        some (0, 0, 1) from rfl] at h
    simp only [Option.some.injEq, Prod.mk.injEq] at h
    obtain ⟨h1, h2, h3⟩ := h
    subst h1
    subst h2
    subst h3
    refine ⟨by omega, by omega, by omega⟩
  · rfl
